import Mathlib

/-!
Verification development for the glTF tile-content decoder of itwinjs-core
(`src/core/frontend/src/tile/GltfReader.ts`).

The TypeScript source is embedded shallowly:

* JavaScript byte buffers (`Uint8Array`) are `List Nat`, each entry a byte value;
  `Uint16Array`/`Uint32Array` views decode little-endian groups of 2 or 4 bytes.
* `Float32Array` entries are decoded exactly to `ℚ` from their IEEE-754 bit
  patterns (NaN/Infinity patterns, which no claim exercises, decode to 0).
  Subsequent arithmetic on decoded values is exact rational arithmetic; IEEE
  double rounding is outside the embedding and no theorem below depends on it.
* `undefined`-able values are `Option`; dictionaries (`GltfDictionary`) are
  association lists keyed by strings, matching JavaScript property access
  (numeric glTF 2.0 ids appear as their decimal strings).
* Functions that mutate an object and return a boolean are modelled as
  functions returning `Option` of the updated object (`none` for `false`).
* The renderer (`RenderSystem`) is an external collaborator per the source's
  interface; its opaque handles are modelled by the inductive `Graphic`.
-/

namespace GltfSpec

/-- A glTF dictionary key. glTF 1.0 uses string keys; glTF 2.0 uses array
indices, which JavaScript property access coerces to their decimal strings. -/
abbrev GltfId := String

/-- Association-list model of a JavaScript object used as a dictionary. -/
abbrev GltfDictionary (α : Type) := List (String × α)

/-- Property lookup on a dictionary: first binding for the key, if any. -/
def dictLookup {α : Type} (d : GltfDictionary α) (k : String) : Option α :=
  (d.find? (fun p => p.1 = k)).map (·.2)

/-- The keys of a dictionary, in declaration order (`Object.keys`). -/
def dictKeys {α : Type} (d : GltfDictionary α) : List String :=
  d.map (·.1)

/-- Component types appearing in glTF accessors and technique uniforms
(GltfSchema's `GltfDataType`; the numeric codes are irrelevant here, only
identity tests on them occur in the reader). -/
inductive GltfDataType where
  | signedByte
  | unsignedByte
  | signedShort
  | unsignedShort
  | signedInt
  | uInt32
  | float
  | sampler2d
  deriving DecidableEq, Repr

/-- Decode a little-endian byte list into 16-bit values, two bytes per value;
a trailing odd byte is dropped (`new Uint16Array(buf, off, byteLength / 2)`). -/
def bytesToU16 : List Nat → List Nat
  | b0 :: b1 :: rest => (b0 % 256 + 256 * (b1 % 256)) :: bytesToU16 rest
  | _ => []

/-- Decode a little-endian byte list into 32-bit values, four bytes per value;
trailing bytes that do not fill a group are dropped. -/
def bytesToU32 : List Nat → List Nat
  | b0 :: b1 :: b2 :: b3 :: rest =>
      (b0 % 256 + 256 * (b1 % 256) + 65536 * (b2 % 256) + 16777216 * (b3 % 256)) :: bytesToU32 rest
  | _ => []

/-- Exact rational value of an IEEE-754 binary32 bit pattern. NaN and
infinity patterns (exponent 255) are collapsed to 0; no claim exercises them. -/
def float32OfBits (bits : Nat) : ℚ :=
  let s : Nat := bits / 2 ^ 31 % 2
  let e : Nat := bits / 2 ^ 23 % 256
  let m : Nat := bits % 2 ^ 23
  let sign : ℚ := if s = 1 then -1 else 1
  if e = 0 then sign * (m : ℚ) / 2 ^ 149
  else if e = 255 then 0
  else sign * ((2 ^ 23 + m : ℚ)) * (2 : ℚ) ^ ((e : ℤ) - 150)

/-- The typed-array payload of a `GltfBufferData` (source union
`Uint8Array | Uint16Array | Uint32Array | Float32Array`). -/
inductive GltfDataBuffer where
  | u8 (vals : List Nat)
  | u16 (vals : List Nat)
  | u32 (vals : List Nat)
  | f32 (vals : List ℚ)
  deriving DecidableEq, Repr

/-- Number of elements of a data buffer (typed array `length`). -/
def GltfDataBuffer.length : GltfDataBuffer → Nat
  | .u8 v | .u16 v | .u32 v => v.length
  | .f32 v => v.length

/-- `GltfReader.ts` `GltfBufferData.createDataBuffer`: reinterpret raw bytes as
a typed array of the stored component type; unsupported types yield none. -/
def createDataBuffer (bytes : List Nat) (actualType : GltfDataType) : Option GltfDataBuffer :=
  match actualType with
  | .unsignedByte => some (.u8 bytes)
  | .unsignedShort => some (.u16 (bytesToU16 bytes))
  | .uInt32 => some (.u32 (bytesToU32 bytes))
  | .float => some (.f32 ((bytesToU32 bytes).map float32OfBits))
  | _ => none

/-- A chunk of binary data exposed as a typed array (source `GltfBufferData`). -/
structure GltfBufferData where
  buffer : GltfDataBuffer
  count : Nat
  deriving DecidableEq, Repr

/-- `GltfReader.ts` `GltfBufferData.create`: produce a buffer of the desired
type from bytes stored at `actualType`. The leading `switch` screens the
requested (`expected`) type when it differs from the stored one; requested
types outside its four cases fall through unscreened, exactly as in the
source (the `switch` has no `default`). -/
def GltfBufferData.create (bytes : List Nat) (actualType expectedType : GltfDataType)
    (count : Nat) : Option GltfBufferData :=
  let go : Option GltfBufferData :=
    (createDataBuffer bytes actualType).map (fun d => ⟨d, count⟩)
  if expectedType ≠ actualType then
    match expectedType with
    | .float => none
    | .unsignedByte => none
    | .unsignedShort => if GltfDataType.unsignedByte ≠ actualType then none else go
    | .uInt32 =>
        if GltfDataType.unsignedByte ≠ actualType ∧ GltfDataType.unsignedShort ≠ actualType then
          none
        else go
    | _ => go
  else go

/-- `WEB3D_quantized_attributes` accessor extension (decode range). -/
structure Web3dQuantizedAttributes where
  decodedMin : Option (List ℚ) := none
  decodedMax : Option (List ℚ) := none
  deriving DecidableEq, Repr

/-- Accessor-level extensions used by the reader. -/
structure GltfAccessorExtensions where
  web3dQuantizedAttributes : Option Web3dQuantizedAttributes := none
  deriving DecidableEq, Repr

/-- A glTF accessor (GltfSchema `GltfAccessor`), restricted to the fields the
reader touches. -/
structure GltfAccessor where
  bufferView : Option GltfId := none
  byteOffset : Option Nat := none
  componentType : GltfDataType
  count : Nat
  type : String := "SCALAR"
  extensions : Option GltfAccessorExtensions := none
  deriving DecidableEq, Repr

/-- A glTF buffer view description (GltfSchema `GltfBufferViewProps`). -/
structure GltfBufferViewProps where
  buffer : Option GltfId := none
  byteOffset : Option Nat := none
  byteLength : Option Nat := none
  byteStride : Option Nat := none
  deriving DecidableEq, Repr

/-- A glTF buffer, possibly already resolved to raw bytes. -/
structure GltfBuffer where
  uri : Option String := none
  resolvedBuffer : Option (List Nat) := none
  deriving DecidableEq, Repr

/-- A view of a chunk of glTF binary data (source class `GltfBufferView`).
`stride` is the source's `byteStride / dataSize`; when `byteStride` is not a
multiple of the component size the JavaScript quotient is fractional — no
claim or witness exercises that degenerate case, so `Nat` division is used. -/
structure GltfBufferView where
  data : List Nat
  count : Nat
  type : GltfDataType
  accessor : GltfAccessor
  stride : Nat
  deriving DecidableEq, Repr

/-- Convert a buffer view to typed data (source `GltfBufferView.toBufferData`). -/
def GltfBufferView.toBufferData (v : GltfBufferView) (desiredType : GltfDataType) :
    Option GltfBufferData :=
  GltfBufferData.create v.data v.type desiredType v.count

/-- Component byte size used by `getBufferView`'s `switch`; unsupported
component types yield `none` (the source returns `undefined`). -/
def componentDataSize : GltfDataType → Option Nat
  | .unsignedByte => some 1
  | .unsignedShort => some 2
  | .uInt32 => some 4
  | .float => some 4
  | _ => none

/-- Vector arity from an accessor `type` string (`getBufferView`'s second
`switch`; anything other than VEC3/VEC2 keeps the default 1). -/
def vectorArity (t : String) : Nat :=
  if t = "VEC3" then 3 else if t = "VEC2" then 2 else 1

/-- A glTF node. Transform fields hold exact rationals standing for the JSON
numbers; `matrix` is the 16-entry column-major array. -/
structure GltfNode where
  children : Option (List GltfId) := none
  matrix : Option (List ℚ) := none
  rotation : Option (List ℚ) := none
  scale : Option (List ℚ) := none
  translation : Option (List ℚ) := none
  mesh : Option GltfId := none
  meshes : Option (List GltfId) := none
  deriving DecidableEq, Repr

/-- Modelled from the spec: GltfSchema's `getGltfNodeMeshIds` (not under
`src/`): a glTF 1.0 node may list several meshes, a glTF 2.0 node at most
one; the reader iterates the node's mesh ids in order. -/
def getGltfNodeMeshIds (node : GltfNode) : List GltfId :=
  match node.meshes with
  | some ms => ms
  | none =>
    match node.mesh with
    | some m => [m]
    | none => []

/-- A glTF scene: its declared root node list. -/
structure GltfScene where
  nodes : Option (List GltfId) := none
  deriving DecidableEq, Repr

/-- A glTF 1.0 technique's `states` object; `enable` lists WebGL state codes
(3042 is BLEND, `GltfTechniqueState.Blend`). -/
structure GltfTechniqueStates where
  enable : Option (List Nat) := none
  deriving DecidableEq, Repr

/-- The WebGL BLEND state code tested by `isMaterialTransparent`. -/
def gltfTechniqueStateBlend : Nat := 3042

/-- A glTF 1.0 technique. -/
structure GltfTechnique where
  states : Option GltfTechniqueStates := none
  deriving DecidableEq, Repr

/-- Values dictionary of a glTF 1.0 material. `color` is present exactly when
the JSON entry is an array (the source gates on `Array.isArray`). -/
structure Gltf1Values where
  color : Option (List ℚ) := none
  tex : Option GltfId := none
  texStep : Option (List ℚ) := none
  deriving DecidableEq, Repr

/-- A glTF 1.0 (legacy) material, restricted to the fields the reader touches. -/
structure Gltf1Material where
  technique : Option GltfId := none
  values : Option Gltf1Values := none
  diffuse : Option String := none
  deriving DecidableEq, Repr

/-- One entry of a modern material's `KHR_techniques_webgl.values` map, as
read by `extractTextureId` (`ext.values[uniformName]?.index`). -/
structure GltfTechniqueValue where
  index : Option GltfId := none
  deriving DecidableEq, Repr

/-- The `values` of a material's `KHR_techniques_webgl` extension. The
`u_color`/`u_texStep` entries are read as arrays; sampler-typed uniform
entries are looked up by uniform name through `byName`. -/
structure MaterialTechniqueValues where
  u_color : Option (List ℚ) := none
  u_texStep : Option (List ℚ) := none
  byName : GltfDictionary GltfTechniqueValue := []
  deriving DecidableEq, Repr

/-- A material's `KHR_techniques_webgl` extension. -/
structure KhrTechniquesWebglMaterial where
  technique : Option Nat := none
  values : Option MaterialTechniqueValues := none
  deriving DecidableEq, Repr

/-- Extensions of a modern material. `khrMaterialsUnlit` is a presence flag
(`undefined !== material.extensions?.KHR_materials_unlit`). -/
structure Gltf2MaterialExtensions where
  khrTechniquesWebgl : Option KhrTechniquesWebglMaterial := none
  khrMaterialsUnlit : Bool := false
  deriving DecidableEq, Repr

/-- A texture reference (`{ index }`) in a modern material. -/
structure GltfTextureRef where
  index : Option GltfId := none
  deriving DecidableEq, Repr

/-- `pbrMetallicRoughness.baseColorTexture`. -/
structure GltfPbrBaseColorTexture where
  index : Option GltfId := none
  texCoord : Option Nat := none
  deriving DecidableEq, Repr

/-- `pbrMetallicRoughness` of a modern material. -/
structure GltfPbrMetallicRoughness where
  baseColorFactor : Option (List ℚ) := none
  baseColorTexture : Option GltfPbrBaseColorTexture := none
  deriving DecidableEq, Repr

/-- A glTF 2.0 (modern) material, restricted to the fields the reader touches. -/
structure Gltf2Material where
  alphaMode : Option String := none
  pbrMetallicRoughness : Option GltfPbrMetallicRoughness := none
  emissiveTexture : Option GltfTextureRef := none
  normalTexture : Option GltfTextureRef := none
  extensions : Option Gltf2MaterialExtensions := none
  deriving DecidableEq, Repr

/-- Modelled from the spec: GltfSchema's `GltfMaterial` union and its
`isGltf1Material` discriminator are not under `src/`; the spec's data model
distinguishes legacy (glTF 1.0) materials from modern ones, so materials are
embedded as a tagged union and the discriminator is the tag test. -/
inductive GltfMaterial where
  | gltf1 (m : Gltf1Material)
  | gltf2 (m : Gltf2Material)
  deriving DecidableEq, Repr

/-- Modelled from the spec: the legacy-material discriminator (see
`GltfMaterial`). -/
def isGltf1Material : GltfMaterial → Bool
  | .gltf1 _ => true
  | .gltf2 _ => false

/-- `KHR_draco_mesh_compression` on a primitive. Decoded meshes are keyed by
this value (the source keys its `Map` by the extension object). -/
structure DracoMeshCompression where
  bufferView : Option GltfId := none
  deriving DecidableEq, Repr

/-- `CESIUM_primitive_outline` on a primitive: the JSON object passed to
`readBufferData32(ext, "indices")`, so just its accessor-id map. -/
structure CesiumPrimitiveOutline where
  indices : Option GltfId := none
  deriving DecidableEq, Repr

/-- Extensions of a mesh primitive used by the reader. -/
structure GltfPrimitiveExtensions where
  khrDracoMeshCompression : Option DracoMeshCompression := none
  cesiumPrimitiveOutline : Option CesiumPrimitiveOutline := none
  deriving DecidableEq, Repr

/-- A glTF mesh primitive. `attributes` maps attribute names to accessor ids
(glTF 2.0 numeric ids appear as decimal strings, as JavaScript coerces them). -/
structure GltfMeshPrimitive where
  attributes : GltfDictionary GltfId := []
  indices : Option GltfId := none
  material : Option GltfId := none
  mode : Option Nat := none
  extensions : Option GltfPrimitiveExtensions := none
  deriving DecidableEq, Repr

/-- A glTF mesh: its primitive list (absent models a mesh with no
`primitives` entry). -/
structure GltfMesh where
  primitives : Option (List GltfMeshPrimitive) := none
  deriving DecidableEq, Repr

/-- A glTF texture. -/
structure GltfTexture where
  source : Option GltfId := none
  sampler : Option GltfId := none
  deriving DecidableEq, Repr

/-- A glTF image; `resolvedImage` is the opaque decoded-image handle produced
by resource resolution (`TextureImageSource` is renderer-facing and opaque). -/
structure GltfImage where
  uri : Option String := none
  resolvedImage : Option Nat := none
  deriving DecidableEq, Repr

/-- A glTF sampler (wrap modes as their WebGL codes). -/
structure GltfSampler where
  wrapS : Option Nat := none
  wrapT : Option Nat := none
  deriving DecidableEq, Repr

/-- One technique of the document-level `KHR_techniques_webgl` extension:
its `uniforms` map from uniform name to `{ type }`. -/
structure ModernTechniqueUniform where
  type : Option GltfDataType := none
  deriving DecidableEq, Repr

/-- A modern technique (document-level extension). -/
structure ModernTechnique where
  uniforms : Option (GltfDictionary ModernTechniqueUniform) := none
  deriving DecidableEq, Repr

/-- Document-level `KHR_techniques_webgl`. -/
structure KhrTechniquesWebglDoc where
  techniques : Option (List ModernTechnique) := none
  deriving DecidableEq, Repr

/-- Document-level extensions used by the reader. -/
structure GltfDocExtensions where
  cesiumRtcCenter : Option (List ℚ) := none
  khrTechniquesWebgl : Option KhrTechniquesWebglDoc := none
  deriving DecidableEq, Repr

/-- The typed glTF document as the reader sees it. A dictionary-valued field
that is `undefined` in the JSON behaves exactly like an empty dictionary in
every reader code path (the getters substitute `emptyDict`), so plain lists
are used with `[]` for both. -/
structure GltfDocument where
  scene : Option GltfId := none
  scenes : GltfDictionary GltfScene := []
  nodes : GltfDictionary GltfNode := []
  meshes : GltfDictionary GltfMesh := []
  accessors : GltfDictionary GltfAccessor := []
  bufferViews : GltfDictionary GltfBufferViewProps := []
  buffers : GltfDictionary GltfBuffer := []
  materials : GltfDictionary GltfMaterial := []
  techniques : GltfDictionary GltfTechnique := []
  textures : GltfDictionary GltfTexture := []
  images : GltfDictionary GltfImage := []
  samplers : GltfDictionary GltfSampler := []
  extensions : Option GltfDocExtensions := none
  deriving DecidableEq, Repr

/-- A decoded draco mesh (the shape `readDracoMeshPrimitive` consumes from
the loaders.gl backend). -/
structure DracoMesh where
  topology : String := "triangle-list"
  indices : Option (List Nat) := none
  position : Option (List ℚ) := none
  normal : Option (List ℚ) := none
  texcoord0 : Option (List ℚ) := none
  batchIds : Option (List Nat) := none
  boundingBox : Option ((ℚ × ℚ × ℚ) × (ℚ × ℚ × ℚ)) := none
  deriving DecidableEq, Repr

/-- Reader state: the parsed document plus the construction-time flags of
`GltfReader`. `canceled` is the (constant) value of the `shouldAbort`
callback at the points where the source polls it, and `dracoMeshes` is the
`_dracoMeshes` map filled during resource resolution. -/
structure GltfReader where
  glTF : GltfDocument
  sceneNodes : List GltfId := []
  yAxisUp : Bool := false
  returnToCenter : Option (ℚ × ℚ × ℚ) := none
  deduplicateVertices : Bool := false
  vertexTableRequired : Bool := false
  canceled : Bool := false
  dracoMeshes : List (DracoMeshCompression × DracoMesh) := []
  defaultWrapMode : Nat := 10497
  deriving DecidableEq, Repr

/-- The scene-node list computed by the `GltfReader` constructor: the
configured scene's declared roots, falling back to every key of the node
dictionary. -/
def computeSceneNodes (g : GltfDocument) : List GltfId :=
  match (g.scene.bind (fun s => dictLookup g.scenes s)).bind (·.nodes) with
  | some ns => ns
  | none => dictKeys g.nodes

/-- `GltfReader.getBufferView`. Each early `return undefined` of the source
is a `none` branch here. The final subarray/slice pair (the alignment-driven
copy-versus-view decision) is value-equal to one clamped byte slice, which is
what `drop`/`take` compute; out-of-range offsets clamp to the available
bytes, exactly as `Uint8Array.subarray`/`slice` do. The body of the source
is wrapped in `try/catch (return undefined)`; every partial JavaScript
operation it performs is modelled by an explicit `none` branch, so the
embedding is a total function. -/
def getBufferView (r : GltfReader) (json : GltfDictionary GltfId) (accessorName : String) :
    Option GltfBufferView :=
  let accessorValue := (dictLookup json accessorName).getD ""
  match (if accessorValue ≠ "" then dictLookup r.glTF.accessors accessorValue else none) with
  | none => none
  | some accessor =>
    match accessor.bufferView with
    | none => none
    | some bvId =>
      match dictLookup r.glTF.bufferViews bvId with
      | none => none
      | some bufferView =>
        match bufferView.buffer with
        | none => none
        | some bufId =>
          match (dictLookup r.glTF.buffers bufId).bind (·.resolvedBuffer) with
          | none => none
          | some bufferData =>
            match componentDataSize accessor.componentType with
            | none => none
            | some dataSize =>
              let componentCount := vectorArity accessor.type
              let byteStride :=
                match bufferView.byteStride with
                | some s => if s ≠ 0 then s else componentCount * dataSize
                | none => componentCount * dataSize
              let offset := bufferView.byteOffset.getD 0 + accessor.byteOffset.getD 0
              let length := byteStride * accessor.count
              let bytes := (bufferData.drop offset).take length
              some ⟨bytes, accessor.count, accessor.componentType, accessor, byteStride / dataSize⟩

/-- `GltfReader.readBufferData`. -/
def readBufferData (r : GltfReader) (json : GltfDictionary GltfId) (accessorName : String)
    (type : GltfDataType) : Option GltfBufferData :=
  match getBufferView r json accessorName with
  | some view => view.toBufferData type
  | none => none

/-- `GltfReader.readBufferData32`. -/
def readBufferData32 (r : GltfReader) (json : GltfDictionary GltfId) (accessorName : String) :
    Option GltfBufferData :=
  readBufferData r json accessorName .uInt32

/-- `GltfReader.readBufferData16`. -/
def readBufferData16 (r : GltfReader) (json : GltfDictionary GltfId) (accessorName : String) :
    Option GltfBufferData :=
  readBufferData r json accessorName .unsignedShort

/-- `GltfReader.readBufferData8`. -/
def readBufferData8 (r : GltfReader) (json : GltfDictionary GltfId) (accessorName : String) :
    Option GltfBufferData :=
  readBufferData r json accessorName .unsignedByte

/-- `GltfReader.readBufferDataFloat`. -/
def readBufferDataFloat (r : GltfReader) (json : GltfDictionary GltfId) (accessorName : String) :
    Option GltfBufferData :=
  readBufferData r json accessorName .float

/-- The children id list of a node (`node.children`, absent meaning none). -/
def childIds (node : GltfNode) : List GltfId :=
  node.children.getD []

/-- Outcome of the node-traversal generator `traverseNodes` of `GltfReader.ts`:
either the list of yielded nodes together with the final visited set (the
mutable `traversed: Set<GltfId>`, modelled as a list growing at the head), or
the thrown "Cycle detected while traversing glTF nodes" error. `fuelOut`
marks exhaustion of the recursion fuel; `travNoFuelOut` below shows the
bound `travPotential` always suffices, so the fuelled function is a faithful
total semantics of the source generator. -/
inductive TraverseResult where
  | ok (nodes : List GltfNode) (traversed : List GltfId)
  | cycleError
  | fuelOut
  deriving DecidableEq, Repr

/-- The free generator function `traverseNodes(ids, nodes, traversed)` of
`GltfReader.ts`, with explicit fuel. For each id in order: a node already in
the (single, shared) `traversed` set throws; a missing node is skipped; a
found node is added to the set, yielded, and its children are traversed
recursively with the same shared set. -/
def traverseNodesF (nodes : GltfDictionary GltfNode) :
    Nat → List GltfId → List GltfId → TraverseResult
  | 0, _, _ => .fuelOut
  | _ + 1, [], traversed => .ok [] traversed
  | fuel + 1, id :: rest, traversed =>
    if id ∈ traversed then .cycleError
    else
      match dictLookup nodes id with
      | none => traverseNodesF nodes fuel rest traversed
      | some node =>
        match traverseNodesF nodes fuel (childIds node) (id :: traversed) with
        | .fuelOut => .fuelOut
        | .cycleError => .cycleError
        | .ok ys t2 =>
          match traverseNodesF nodes fuel rest t2 with
          | .fuelOut => .fuelOut
          | .cycleError => .cycleError
          | .ok zs t3 => .ok (node :: (ys ++ zs)) t3

/-- The set of node-dictionary keys. -/
def keysFinset (nodes : GltfDictionary GltfNode) : Finset String :=
  (dictKeys nodes).toFinset

/-- An upper bound on the children-list length of any node in the dictionary. -/
def maxChildLen (nodes : GltfDictionary GltfNode) : Nat :=
  nodes.foldr (fun p acc => max (childIds p.2).length acc) 0

/-- Fuel bound for `traverseNodesF`: enough for the pending id list plus a
full descent into every not-yet-visited dictionary node. -/
def travPotential (nodes : GltfDictionary GltfNode) (ids t : List GltfId) : Nat :=
  ids.length + 1 + ((keysFinset nodes) \ t.toFinset).card * (2 + maxChildLen nodes)

/-- `GltfReader.traverseNodes(nodeIds)`: run the generator to completion from
a fresh empty visited set, with sufficient fuel. -/
def traverseNodes (r : GltfReader) (nodeIds : List GltfId) : TraverseResult :=
  traverseNodesF r.glTF.nodes (travPotential r.glTF.nodes nodeIds []) nodeIds []

/-- `GltfReader.traverseScene()`. -/
def traverseScene (r : GltfReader) : TraverseResult :=
  traverseNodes r r.sceneNodes

/-- Reachability along children links, through nodes present in the
dictionary (missing children are skipped by the traversal, so they reach
nothing). `Reaches nodes a b` means the traversal, started at `a`, will
attempt to enter `b`. -/
inductive Reaches (nodes : GltfDictionary GltfNode) : GltfId → GltfId → Prop where
  | refl (a : GltfId) (node : GltfNode) (ha : dictLookup nodes a = some node) :
      Reaches nodes a a
  | step (a b c : GltfId) (node : GltfNode) (ha : dictLookup nodes a = some node)
      (hb : b ∈ childIds node) (hr : Reaches nodes b c) : Reaches nodes a c

/-- A node lying on a nonempty children-cycle. -/
def CycleAt (nodes : GltfDictionary GltfNode) (v : GltfId) : Prop :=
  ∃ node, dictLookup nodes v = some node ∧ ∃ c ∈ childIds node, Reaches nodes c v

/-- A 3-component rational vector (`Point3d`/`Vector3d` with exact values). -/
structure Vec3 where
  x : ℚ
  y : ℚ
  z : ℚ
  deriving DecidableEq, Repr

/-- A 2-component rational vector. -/
structure Vec2 where
  x : ℚ
  y : ℚ
  deriving DecidableEq, Repr

/-- `Range3d`: `none` is the null (empty) range, otherwise low/high corners. -/
abbrev Range3 := Option (Vec3 × Vec3)

/-- `Range2d`. -/
abbrev Range2 := Option (Vec2 × Vec2)

/-- `Range3d.extendXYZ`. -/
def range3ExtendXYZ (r : Range3) (x y z : ℚ) : Range3 :=
  match r with
  | none => some (⟨x, y, z⟩, ⟨x, y, z⟩)
  | some (lo, hi) =>
      some (⟨min lo.x x, min lo.y y, min lo.z z⟩, ⟨max hi.x x, max hi.y y, max hi.z z⟩)

/-- `Range3d.extendRange`. -/
def range3ExtendRange (r other : Range3) : Range3 :=
  match other with
  | none => r
  | some (lo, hi) => range3ExtendXYZ (range3ExtendXYZ r lo.x lo.y lo.z) hi.x hi.y hi.z

/-- `Range2d.extendXY`. -/
def range2ExtendXY (r : Range2) (x y : ℚ) : Range2 :=
  match r with
  | none => some (⟨x, y⟩, ⟨x, y⟩)
  | some (lo, hi) => some (⟨min lo.x x, min lo.y y⟩, ⟨max hi.x x, max hi.y y⟩)

/-- `Quantization.computeScale`: 0 for an empty extent, else `0xffff / extent`. -/
def qScale (extent : ℚ) : ℚ :=
  if extent = 0 then 0 else 65535 / extent

/-- `Quantization.quantize(pos, origin, scale)` =
`floor(max(0, min(0xffff, 0.5 + (pos - origin) * scale)))`, exact on ℚ. -/
def qQuantize (pos origin scale : ℚ) : Nat :=
  (max 0 (min 65535 (1 / 2 + (pos - origin) * scale))).floor.toNat

/-- `QParams3d`: origin and per-axis scale of a quantized point list. -/
structure QParams3 where
  origin : Vec3
  scale : Vec3
  deriving DecidableEq, Repr

/-- `QParams3d.fromRange` (a null range yields zero origin and scale). -/
def qParams3FromRange (r : Range3) : QParams3 :=
  match r with
  | none => ⟨⟨0, 0, 0⟩, ⟨0, 0, 0⟩⟩
  | some (lo, hi) =>
      ⟨lo, ⟨qScale (hi.x - lo.x), qScale (hi.y - lo.y), qScale (hi.z - lo.z)⟩⟩

/-- `QParams2d`. -/
structure QParams2 where
  origin : Vec2
  scale : Vec2
  deriving DecidableEq, Repr

/-- `QParams2d.fromRange`. -/
def qParams2FromRange (r : Range2) : QParams2 :=
  match r with
  | none => ⟨⟨0, 0⟩, ⟨0, 0⟩⟩
  | some (lo, hi) => ⟨lo, ⟨qScale (hi.x - lo.x), qScale (hi.y - lo.y)⟩⟩

/-- Quantize one 3d point with given params (what `QPoint3dList.add` stores). -/
def qPoint3 (p : Vec3) (params : QParams3) : List Nat :=
  [qQuantize p.x params.origin.x params.scale.x,
   qQuantize p.y params.origin.y params.scale.y,
   qQuantize p.z params.origin.z params.scale.z]

/-- Modelled from the spec: `OctEncodedNormal.encode` of core-common (not
under `src/`) packs a unit direction into 16 bits via octahedral projection
(L1 normalization, fold for the lower hemisphere, bytes from the two planar
coordinates). Exact rational version; the spec only requires a packed 16-bit
oct-encoded normal, and no claim inspects the encoded value. -/
def octEncode16 (v : Vec3) : Nat :=
  let denom : ℚ := |v.x| + |v.y| + |v.z|
  let rx : ℚ := if denom = 0 then 0 else v.x / denom
  let ry : ℚ := if denom = 0 then 0 else v.y / denom
  let ux : ℚ := if v.z < 0 then (1 - |ry|) * (if rx < 0 then -1 else 1) else rx
  let uy : ℚ := if v.z < 0 then (1 - |rx|) * (if ry < 0 then -1 else 1) else ry
  let b : ℚ → Nat := fun q => (max 0 (min 255 ((q * (1 / 2) + 1 / 2) * 255 + 1 / 2))).floor.toNat
  b ux + 256 * b uy

/-- A 3x3 rational matrix (`Matrix3d`), row major. -/
structure Mat3 where
  m00 : ℚ
  m01 : ℚ
  m02 : ℚ
  m10 : ℚ
  m11 : ℚ
  m12 : ℚ
  m20 : ℚ
  m21 : ℚ
  m22 : ℚ
  deriving DecidableEq, Repr

/-- The identity matrix. -/
def mat3Identity : Mat3 := ⟨1, 0, 0, 0, 1, 0, 0, 0, 1⟩

/-- Matrix product. -/
def mat3Mul (a b : Mat3) : Mat3 :=
  ⟨a.m00 * b.m00 + a.m01 * b.m10 + a.m02 * b.m20,
   a.m00 * b.m01 + a.m01 * b.m11 + a.m02 * b.m21,
   a.m00 * b.m02 + a.m01 * b.m12 + a.m02 * b.m22,
   a.m10 * b.m00 + a.m11 * b.m10 + a.m12 * b.m20,
   a.m10 * b.m01 + a.m11 * b.m11 + a.m12 * b.m21,
   a.m10 * b.m02 + a.m11 * b.m12 + a.m12 * b.m22,
   a.m20 * b.m00 + a.m21 * b.m10 + a.m22 * b.m20,
   a.m20 * b.m01 + a.m21 * b.m11 + a.m22 * b.m21,
   a.m20 * b.m02 + a.m21 * b.m12 + a.m22 * b.m22⟩

/-- Matrix-vector product. -/
def mat3MulVec (a : Mat3) (v : Vec3) : Vec3 :=
  ⟨a.m00 * v.x + a.m01 * v.y + a.m02 * v.z,
   a.m10 * v.x + a.m11 * v.y + a.m12 * v.z,
   a.m20 * v.x + a.m21 * v.y + a.m22 * v.z⟩

/-- Transpose. -/
def mat3Transpose (a : Mat3) : Mat3 :=
  ⟨a.m00, a.m10, a.m20, a.m01, a.m11, a.m21, a.m02, a.m12, a.m22⟩

/-- Determinant. -/
def mat3Det (a : Mat3) : ℚ :=
  a.m00 * (a.m11 * a.m22 - a.m12 * a.m21)
    - a.m01 * (a.m10 * a.m22 - a.m12 * a.m20)
    + a.m02 * (a.m10 * a.m21 - a.m11 * a.m20)

/-- Matrix inverse, `none` when singular (`Matrix3d.inverse` /
`multiplyInverse` failing). -/
def mat3Inv (a : Mat3) : Option Mat3 :=
  let d := mat3Det a
  if d = 0 then none
  else
    some ⟨(a.m11 * a.m22 - a.m12 * a.m21) / d,
          (a.m02 * a.m21 - a.m01 * a.m22) / d,
          (a.m01 * a.m12 - a.m02 * a.m11) / d,
          (a.m12 * a.m20 - a.m10 * a.m22) / d,
          (a.m00 * a.m22 - a.m02 * a.m20) / d,
          (a.m02 * a.m10 - a.m00 * a.m12) / d,
          (a.m10 * a.m21 - a.m11 * a.m20) / d,
          (a.m01 * a.m20 - a.m00 * a.m21) / d,
          (a.m00 * a.m11 - a.m01 * a.m10) / d⟩

/-- `Transform`: origin plus matrix, acting as `p ↦ origin + matrix · p`. -/
structure Transform where
  origin : Vec3
  matrix : Mat3
  deriving DecidableEq, Repr

/-- The identity transform. -/
def transformIdentity : Transform := ⟨⟨0, 0, 0⟩, mat3Identity⟩

/-- `Transform.multiplyTransformTransform` (composition, `this` applied
after `other`). -/
def transformMul (t other : Transform) : Transform :=
  ⟨⟨t.origin.x + (mat3MulVec t.matrix other.origin).x,
    t.origin.y + (mat3MulVec t.matrix other.origin).y,
    t.origin.z + (mat3MulVec t.matrix other.origin).z⟩,
   mat3Mul t.matrix other.matrix⟩

/-- Apply a transform to a point. -/
def transformPoint (t : Transform) (p : Vec3) : Vec3 :=
  let mp := mat3MulVec t.matrix p
  ⟨t.origin.x + mp.x, t.origin.y + mp.y, t.origin.z + mp.z⟩

/-- `Transform.createTranslation`. -/
def transformTranslation (v : Vec3) : Transform := ⟨v, mat3Identity⟩

/-- `Transform.inverse`, `none` when the matrix is singular. -/
def transformInverse (t : Transform) : Option Transform :=
  match mat3Inv t.matrix with
  | none => none
  | some mi =>
      let o := mat3MulVec mi t.origin
      some ⟨⟨-o.x, -o.y, -o.z⟩, mi⟩

/-- `Transform.multiplyRange`: transform the corners of a range and collect
their range (exactly what the source does; a null range stays null). -/
def transformMultiplyRange (t : Transform) (r : Range3) : Range3 :=
  match r with
  | none => none
  | some (lo, hi) =>
      let corners : List Vec3 :=
        [⟨lo.x, lo.y, lo.z⟩, ⟨hi.x, lo.y, lo.z⟩, ⟨lo.x, hi.y, lo.z⟩, ⟨hi.x, hi.y, lo.z⟩,
         ⟨lo.x, lo.y, hi.z⟩, ⟨hi.x, lo.y, hi.z⟩, ⟨lo.x, hi.y, hi.z⟩, ⟨hi.x, hi.y, hi.z⟩]
      corners.foldl (fun acc c =>
        let p := transformPoint t c
        range3ExtendXYZ acc p.x p.y p.z) none

/-- `Matrix3d.createScale`. -/
def mat3Scale (sx sy sz : ℚ) : Mat3 := ⟨sx, 0, 0, 0, sy, 0, 0, 0, sz⟩

/-- `Matrix3d.createFromQuaternion` followed by the source's
`transposeInPlace` (see the comment in `TransformStack.push`); standard
quaternion-to-rotation formula, exact on ℚ. -/
def mat3FromQuaternionTransposed (qx qy qz qw : ℚ) : Mat3 :=
  mat3Transpose
    ⟨1 - 2 * (qy * qy + qz * qz), 2 * (qx * qy - qz * qw), 2 * (qx * qz + qy * qw),
     2 * (qx * qy + qz * qw), 1 - 2 * (qx * qx + qz * qz), 2 * (qy * qz - qx * qw),
     2 * (qx * qz - qy * qw), 2 * (qy * qz + qx * qw), 1 - 2 * (qx * qx + qy * qy)⟩

/-- Transform contributed by a node (`TransformStack.push`): an explicit
column-major 4x4 `matrix` wins; otherwise rotation/scale/translation are
composed exactly as the source does (`trans * (scale * rot)`, with the
quaternion matrix transposed); a node with neither contributes nothing. -/
def nodeLocalTransform (node : GltfNode) : Option Transform :=
  match node.matrix with
  | some m =>
    let g : Nat → ℚ := fun i => (m.get? i).getD 0
    some ⟨⟨g 12, g 13, g 14⟩, ⟨g 0, g 4, g 8, g 1, g 5, g 9, g 2, g 6, g 10⟩⟩
  | none =>
    if node.rotation.isSome ∨ node.scale.isSome ∨ node.translation.isSome then
      let sv : List ℚ := node.scale.getD [1, 1, 1]
      let gs : Nat → ℚ := fun i => (sv.get? i).getD 1
      let scaleT : Transform :=
        match node.scale with
        | some _ => ⟨⟨0, 0, 0⟩, mat3Scale (gs 0) (gs 1) (gs 2)⟩
        | none => ⟨⟨0, 0, 0⟩, mat3Identity⟩
      let rotT : Transform :=
        match node.rotation with
        | some rv =>
          let gr : Nat → ℚ := fun i => ((rv.get? i)).getD 0
          ⟨⟨0, 0, 0⟩, mat3FromQuaternionTransposed (gr 0) (gr 1) (gr 2) (gr 3)⟩
        | none => ⟨⟨0, 0, 0⟩, mat3Identity⟩
      let transT : Transform :=
        match node.translation with
        | some tv =>
          let gt : Nat → ℚ := fun i => ((tv.get? i)).getD 0
          transformTranslation ⟨gt 0, gt 1, gt 2⟩
        | none => transformTranslation ⟨0, 0, 0⟩
      some (transformMul transT (transformMul scaleT rotT))
    else none

/-- The transform stack, top at the head; entries may be `undefined`
(`Array<Transform | undefined>`). -/
abbrev TransformStack := List (Option Transform)

/-- `TransformStack.transform`: the top entry, `undefined` when empty. -/
def stackTransform (stack : TransformStack) : Option Transform :=
  match stack with
  | [] => none
  | t :: _ => t

/-- `TransformStack.push`. -/
def transformStackPush (stack : TransformStack) (node : GltfNode) : TransformStack :=
  let nodeTransform := nodeLocalTransform node
  match stackTransform stack with
  | none => nodeTransform :: stack
  | some top =>
    (some (match nodeTransform with
           | some nt => transformMul top nt
           | none => top)) :: stack

/-- A display color, `ColorDef` with exact channels; `transp` is the stored
transparency byte value (0 = fully opaque). -/
structure ColorDefQ where
  r : ℚ
  g : ℚ
  b : ℚ
  transp : ℚ
  deriving DecidableEq, Repr

/-- `ColorDef.white`. -/
def colorWhite : ColorDefQ := ⟨255, 255, 255, 0⟩

/-- `ColorDef.withTransparency`. -/
def colorWithTransparency (c : ColorDefQ) (t : ℚ) : ColorDefQ :=
  { c with transp := t }

/-- `GltfReader.ts` `colorFromJson`:
`ColorDef.from(v0*255, v1*255, v2*255, (1 - v3)*255)`. A missing channel
makes the JavaScript arithmetic produce NaN, which `ColorDef.from` coerces
to 0; the defaults below reproduce those coerced results exactly. -/
def colorFromJson (values : List ℚ) : ColorDefQ :=
  ⟨(values.get? 0).getD 0 * 255, (values.get? 1).getD 0 * 255, (values.get? 2).getD 0 * 255,
   (1 - (values.get? 3).getD 1) * 255⟩

/-- `GltfReader.ts` `colorFromMaterial`: pick the base color (legacy explicit
values for a glTF 1.0 material; else the `KHR_techniques_webgl` `u_color`,
else the PBR base-color factor, for a modern one; white when nothing
applies), then discard alpha when the material is not transparent. -/
def colorFromMaterial (material : GltfMaterial) (isTransparent : Bool) : ColorDefQ :=
  let color :=
    match material with
    | .gltf1 m =>
      match m.values.bind (·.color) with
      | some arr => colorFromJson arr
      | none => colorWhite
    | .gltf2 m =>
      match ((m.extensions.bind (·.khrTechniquesWebgl)).bind (·.values)).bind (·.u_color) with
      | some arr => colorFromJson arr
      | none =>
        match m.pbrMetallicRoughness.bind (·.baseColorFactor) with
        | some arr => colorFromJson arr
        | none => colorWhite
  if !isTransparent then colorWithTransparency color 0 else color

/-- `GltfReader.isMaterialTransparent`: a legacy material is transparent
when its technique enables blending; a modern one exactly when
`alphaMode === "BLEND"` (MASK is treated as opaque). -/
def isMaterialTransparent (techniques : GltfDictionary GltfTechnique)
    (material : GltfMaterial) : Bool :=
  match material with
  | .gltf1 m =>
    match m.technique with
    | none => false
    | some t =>
      match dictLookup techniques t with
      | none => false
      | some tech =>
        ((tech.states.bind (·.enable)).getD []).any (· = gltfTechniqueStateBlend)
  | .gltf2 m => m.alphaMode = some "BLEND"

/-- `GltfReader.extractTextureId`. For a legacy material: the `diffuse` id,
else `values.tex`. For a modern material: when the document declares
`KHR_techniques_webgl` techniques and the material carries that extension,
the first sampler-typed uniform's value id (returned even when absent);
otherwise the PBR base-color texture id, else the emissive texture id.
An out-of-range `ext.technique` index would make the JavaScript throw; no
claim exercises it and it is modelled as an absent uniforms map. -/
def extractTextureId (g : GltfDocument) (material : GltfMaterial) : Option String :=
  match material with
  | .gltf1 m =>
    match m.diffuse with
    | some d => some d
    | none => m.values.bind (·.tex)
  | .gltf2 m =>
    let pbrFallback : Option String :=
      match (m.pbrMetallicRoughness.bind (·.baseColorTexture)).bind (·.index) with
      | some i => some i
      | none => m.emissiveTexture.bind (·.index)
    let techniques := (g.extensions.bind (·.khrTechniquesWebgl)).bind (·.techniques)
    let ext :=
      match techniques with
      | some _ => m.extensions.bind (·.khrTechniquesWebgl)
      | none => none
    match techniques, ext with
    | some techList, some extv =>
      match extv.values with
      | some vals =>
        let uniforms :=
          match extv.technique with
          | some ti => (techList.get? ti).bind (·.uniforms)
          | none => none
        match uniforms with
        | some us =>
          match us.find? (fun p => p.2.type = some GltfDataType.sampler2d) with
          | some p => (dictLookup vals.byName p.1).bind (·.index)
          | none => pbrFallback
        | none => pbrFallback
      | none => pbrFallback
    | _, _ => pbrFallback

/-- `GltfReader.extractNormalMapId`: modern materials only. -/
def extractNormalMapId (material : GltfMaterial) : Option String :=
  match material with
  | .gltf1 _ => none
  | .gltf2 m => m.normalTexture.bind (·.index)

/-- `RenderTexture.Type` as used by `getTextureType`. -/
inductive RenderTextureType where
  | normal
  | tileSection
  deriving DecidableEq, Repr

/-- glTF wrap-mode code CLAMP_TO_EDGE. -/
def gltfWrapClampToEdge : Nat := 33071

/-- `GltfReader.getTextureType`. -/
def getTextureType (r : GltfReader) (sampler : Option GltfSampler) : RenderTextureType :=
  let wrapS0 := sampler.bind (·.wrapS)
  let wrapT0 := sampler.bind (·.wrapT)
  let wrapS := if wrapS0 = none ∧ wrapT0 = none then some r.defaultWrapMode else wrapS0
  let wrapT := if wrapS0 = none ∧ wrapT0 = none then some r.defaultWrapMode else wrapT0
  if wrapS = some gltfWrapClampToEdge ∨ wrapT = some gltfWrapClampToEdge then
    .tileSection
  else
    .normal

/-- An opaque renderer texture handle as created by
`RenderSystem.createTexture` (external collaborator; handles carry the
request that produced them). -/
structure RenderTexture where
  type : RenderTextureType
  imageHandle : Nat
  transparencyMixed : Bool
  deriving DecidableEq, Repr

/-- `GltfReader.resolveTexture`: `none` models the `false` sentinel. The
renderer's `createTexture` is abstracted as always returning a handle. -/
def resolveTexture (r : GltfReader) (textureId : String) (isTransparent : Bool) :
    Option RenderTexture :=
  match dictLookup r.glTF.textures textureId with
  | none => none
  | some texture =>
    match texture.source with
    | none => none
    | some src =>
      match (dictLookup r.glTF.images src).bind (·.resolvedImage) with
      | none => none
      | some img =>
        let sampler := texture.sampler.bind (fun sid => dictLookup r.glTF.samplers sid)
        some ⟨getTextureType r sampler, img, isTransparent⟩

/-- Normal-map parameters attached to a texture mapping. -/
structure NormalMapParams where
  normalMap : Option RenderTexture := none
  greenUp : Bool := true
  deriving DecidableEq, Repr

/-- A `TextureMapping`. -/
structure TextureMapping where
  texture : RenderTexture
  normalMapParams : Option NormalMapParams := none
  deriving DecidableEq, Repr

/-- `GltfReader.findTextureMapping`. The per-read texture cache
(`_resolvedTextures`) memoizes `resolveTexture` by (id, transparency); with
the deterministic renderer abstraction it is result-transparent and elided. -/
def findTextureMapping (r : GltfReader) (id : Option String) (isTransparent : Bool)
    (normalMapId : Option String) : Option TextureMapping :=
  if id = none ∧ normalMapId = none then none
  else
    let texture := id.bind (fun i => resolveTexture r i isTransparent)
    let normalMap := normalMapId.bind (fun i => resolveTexture r i false)
    match normalMap with
    | some nm =>
      match texture with
      | some tex => some ⟨tex, some ⟨some nm, true⟩⟩
      | none => some ⟨nm, some ⟨none, true⟩⟩
    | none =>
      match texture with
      | some tex => some ⟨tex, none⟩
      | none => none

/-- Display parameters of a primitive. Modelled from the spec:
`DisplayParams` (render/primitives) is not under `src/`; the reader supplies
the resolved color twice (line and fill), the texture mapping, an optional
render material (created only when a normal map is present) and the
baked-lighting flag, whose `ignoreLighting` consequence gates normal
reading. -/
structure DisplayParams where
  fillColor : ColorDefQ
  lineColor : ColorDefQ
  hasBakedLighting : Bool
  textureMapping : Option TextureMapping
  hasRenderMaterial : Bool
  deriving DecidableEq, Repr

/-- Modelled from the spec: a primitive with baked lighting ignores lighting,
so the reader skips reading normals for it. -/
def DisplayParams.ignoreLighting (d : DisplayParams) : Bool :=
  d.hasBakedLighting

/-- `GltfReader.createDisplayParams`. -/
def createDisplayParams (r : GltfReader) (material : GltfMaterial) (hasBakedLighting : Bool) :
    Option DisplayParams :=
  let isTransparent := isMaterialTransparent r.glTF.techniques material
  let textureId := extractTextureId r.glTF material
  let normalMapId := extractNormalMapId material
  let textureMapping :=
    if textureId ≠ none ∨ normalMapId ≠ none then
      findTextureMapping r textureId isTransparent normalMapId
    else none
  let color := colorFromMaterial material isTransparent
  let hasRenderMaterial :=
    match textureMapping with
    | some tm => tm.normalMapParams.isSome
    | none => false
  some ⟨color, color, hasBakedLighting, textureMapping, hasRenderMaterial⟩

/-- Width of a typed index array. -/
inductive IndexWidth where
  | u8
  | u16
  | u32
  deriving DecidableEq, Repr

/-- A typed index array (`Uint8Array | Uint16Array | Uint32Array`). -/
structure MeshIndices where
  width : IndexWidth
  vals : List Nat
  deriving DecidableEq, Repr

/-- `Mesh.PrimitiveType`. -/
inductive MeshPrimitiveType where
  | mesh
  | polyline
  | point
  deriving DecidableEq, Repr

/-- The renderer-facing `Mesh` as the reader populates it. Modelled from the
spec: `Mesh` (render/primitives/mesh) is not under `src/`; the assembler
merges display parameters, a color-map fill, polylines for line/point
primitives, triangles, quantized points, normals, uv parameters, edges and
feature indices into the renderer-ready representation. -/
structure MeshPrimitiveModel where
  type : MeshPrimitiveType
  displayParams : DisplayParams
  hasFeatures : Bool := false
  isVolumeClassifier : Bool := false
  is2d : Bool := false
  colorMapFill : Option ColorDefQ := none
  polylines : Option (List (List Nat)) := none
  edges : Option (List (Nat × Nat)) := none
  triangles : List (Nat × Nat × Nat) := []
  pointsParams : Option QParams3 := none
  qpoints : List Nat := []
  normalsList : List Nat := []
  uvParams : List Vec2 := []
  featureIndices : Option (List Nat) := none
  deriving DecidableEq, Repr

/-- `GltfMeshData`: raw glTF mesh data. `pointRange`, `uvRange` distinguish
"field not assigned" (outer `none`) from "assigned a null range" (inner
`none`), since a JavaScript `Range3d` object is truthy even when empty. -/
structure GltfMeshData where
  primitive : MeshPrimitiveModel
  pointQParams : Option QParams3 := none
  points : Option (List Nat) := none
  pointRange : Option Range3 := none
  normals : Option (List Nat) := none
  uvQParams : Option QParams2 := none
  uvs : Option (List Nat) := none
  uvRange : Option Range2 := none
  indices : Option MeshIndices := none
  deriving DecidableEq, Repr

/-- Numeric values of a non-float data buffer (used where the source indexes
`Uint8/16/32Array` buffers). -/
def dataBufferNat : GltfDataBuffer → List Nat
  | .u8 v | .u16 v | .u32 v => v
  | .f32 _ => []

/-- Indexed read of a rational value list; a JavaScript out-of-range typed
array read gives `undefined` (NaN in arithmetic) — modelled by 0, and no
claim exercises such reads. -/
def f32At (vals : List ℚ) (i : Nat) : ℚ :=
  (vals.get? i).getD 0

/-- Indexed read of an integer value list, 0 for out-of-range. -/
def natAt (vals : List Nat) (i : Nat) : Nat :=
  (vals.get? i).getD 0

/-- Rational list entry with default 0 (range arrays of
`WEB3D_quantized_attributes`). -/
def qAt (vals : List ℚ) (i : Nat) : ℚ :=
  (vals.get? i).getD 0

/-- `GltfReader.readVertices`: resolve POSITION; float positions are scanned
for their range and quantized against it (after subtracting the pseudo-RTC
bias), unsigned-short positions trust the `WEB3D_quantized_attributes`
decode range. Any other component type fails. The range-scan loop advances
`stride` elements per iteration; a fractional JavaScript stride below 1
(byteStride smaller than the component size, `Nat`-divided to 0 here) is
degenerate and modelled as an empty scan. -/
def readVertices (r : GltfReader) (mesh : GltfMeshData) (primitive : GltfMeshPrimitive)
    (pseudoRtcBias : Option Vec3) : Option GltfMeshData :=
  match getBufferView r primitive.attributes "POSITION" with
  | none => none
  | some view =>
    if view.type = .float then
      match view.toBufferData .float with
      | some ⟨.f32 vals, count⟩ =>
        let stride := view.stride
        let iters := if stride = 0 then 0 else (vals.length + stride - 1) / stride
        let pointRange := (List.range iters).foldl (fun acc k =>
          range3ExtendXYZ acc (f32At vals (k * stride)) (f32At vals (k * stride + 1))
            (f32At vals (k * stride + 2))) none
        let params := qParams3FromRange pointRange
        let pts := (List.range count).flatMap (fun k =>
          let p : Vec3 := ⟨f32At vals (k * stride), f32At vals (k * stride + 1),
            f32At vals (k * stride + 2)⟩
          let p : Vec3 :=
            match pseudoRtcBias with
            | some b => ⟨p.x - b.x, p.y - b.y, p.z - b.z⟩
            | none => p
          qPoint3 p params)
        some { mesh with
                pointRange := some pointRange
                pointQParams := some params
                points := some pts }
      | _ => none
    else
      if view.type ≠ .unsignedShort then none
      else
        match (view.accessor.extensions.bind (·.web3dQuantizedAttributes)) with
        | none => none
        | some quantized =>
          match quantized.decodedMin, quantized.decodedMax with
          | some rangeMin, some rangeMax =>
            match view.toBufferData .unsignedShort with
            | some ⟨.u16 vals, _⟩ =>
              let range0 : Range3 :=
                range3ExtendXYZ
                  (range3ExtendXYZ none (qAt rangeMin 0) (qAt rangeMin 1) (qAt rangeMin 2))
                  (qAt rangeMax 0) (qAt rangeMax 1) (qAt rangeMax 2)
              let range1 : Range3 :=
                match pseudoRtcBias, range0 with
                | some b, some (lo, hi) =>
                    some (⟨lo.x - b.x, lo.y - b.y, lo.z - b.z⟩, ⟨hi.x - b.x, hi.y - b.y, hi.z - b.z⟩)
                | _, _ => range0
              let params := qParams3FromRange range1
              let pts :=
                if view.stride = 3 then vals
                else (List.range view.count).flatMap (fun k =>
                  [natAt vals (k * view.stride), natAt vals (k * view.stride + 1),
                   natAt vals (k * view.stride + 2)])
              some { mesh with
                      pointRange := some range1
                      pointQParams := some params
                      points := some pts }
            | _ => none
          | _, _ => none

/-- The accessor-id map of a primitive viewed as a JSON object, as passed to
`getBufferView(json, "indices")`: only its `indices` entry is relevant. -/
def primitiveJson (p : GltfMeshPrimitive) : GltfDictionary GltfId :=
  match p.indices with
  | some i => [("indices", i)]
  | none => []

/-- `GltfReader.readMeshIndices`: an explicit index accessor is read at
16-bit width, falling back to 32-bit; otherwise sequential indices are
manufactured from `mesh.points.length` (the flat scalar array length),
failing when that length is not divisible by 3, in the width selected by
comparing that length against 255 and 0xffff. -/
def readMeshIndices (r : GltfReader) (mesh : GltfMeshData) (json : GltfMeshPrimitive) :
    Option GltfMeshData :=
  match json.indices with
  | some _ =>
    let data :=
      match readBufferData16 r (primitiveJson json) "indices" with
      | some d => some d
      | none => readBufferData32 r (primitiveJson json) "indices"
    match data with
    | some d =>
      match d.buffer with
      | .u8 v => some { mesh with indices := some ⟨.u8, v⟩ }
      | .u16 v => some { mesh with indices := some ⟨.u16, v⟩ }
      | .u32 v => some { mesh with indices := some ⟨.u32, v⟩ }
      | .f32 _ => none
    | none => none
  | none =>
    match mesh.points with
    | none => none
    | some pts =>
      let numPoints := pts.length
      if numPoints % 3 ≠ 0 then none
      else
        let width : IndexWidth :=
          if numPoints < 255 then .u8 else if numPoints < 65535 then .u16 else .u32
        some { mesh with indices := some ⟨width, List.range numPoints⟩ }

/-- `GltfReader.readNormals`: float normals are oct-encoded per element;
unsigned-byte normals combine the byte pair at each stride step into a
16-bit value; any other component type fails. -/
def readNormals (r : GltfReader) (mesh : GltfMeshData) (json : GltfDictionary GltfId)
    (accessorName : String) : Option GltfMeshData :=
  match getBufferView r json accessorName with
  | none => none
  | some view =>
    match view.type with
    | .float =>
      match view.toBufferData .float with
      | some ⟨.f32 vals, count⟩ =>
        let stride := view.stride
        let ns := (List.range count).map (fun k =>
          octEncode16 ⟨f32At vals (k * stride), f32At vals (k * stride + 1),
            f32At vals (k * stride + 2)⟩)
        some { mesh with normals := some ns }
      | _ => none
    | .unsignedByte =>
      match view.toBufferData .unsignedByte with
      | some ⟨.u8 vals, count⟩ =>
        let ns := (List.range count).map (fun k =>
          natAt vals (k * view.stride) + 256 * natAt vals (k * view.stride + 1))
        some { mesh with normals := some ns }
      | _ => none
    | _ => none

/-- `GltfReader.readUVParams`: float UVs are range-scanned and quantized;
unsigned-short UVs trust the `WEB3D_quantized_attributes` decode range; any
other component type fails (the source asserts and returns false). -/
def readUVParams (r : GltfReader) (mesh : GltfMeshData) (json : GltfDictionary GltfId)
    (accessorName : String) : Option GltfMeshData :=
  match getBufferView r json accessorName with
  | none => none
  | some view =>
    match view.type with
    | .float =>
      match readBufferDataFloat r json accessorName with
      | some ⟨.f32 vals, count⟩ =>
        let stride := view.stride
        let uvRange := (List.range count).foldl (fun acc k =>
          range2ExtendXY acc (f32At vals (k * stride)) (f32At vals (k * stride + 1))) none
        let params := qParams2FromRange uvRange
        let uvs := (List.range count).flatMap (fun k =>
          [qQuantize (f32At vals (k * stride)) params.origin.x params.scale.x,
           qQuantize (f32At vals (k * stride + 1)) params.origin.y params.scale.y])
        some { mesh with
                uvRange := some uvRange
                uvQParams := some params
                uvs := some uvs }
      | _ => none
    | .unsignedShort =>
      match view.accessor.extensions.bind (·.web3dQuantizedAttributes) with
      | none => none
      | some quantized =>
        match quantized.decodedMin, quantized.decodedMax with
        | some rangeMin, some rangeMax =>
          match view.toBufferData .unsignedShort with
          | some ⟨.u16 vals, _⟩ =>
            let uvRange : Range2 :=
              range2ExtendXY (range2ExtendXY none (qAt rangeMin 0) (qAt rangeMin 1))
                (qAt rangeMax 0) (qAt rangeMax 1)
            let params := qParams2FromRange uvRange
            let uvs :=
              if view.stride = 2 then vals
              else (List.range view.count).flatMap (fun k =>
                [natAt vals (k * view.stride), natAt vals (k * view.stride + 1)])
            some { mesh with
                    uvRange := some uvRange
                    uvQParams := some params
                    uvs := some uvs }
          | _ => none
        | _, _ => none
    | _ => none

/-- The pair-merging loop of `readPolylines` (non-disjoint case): each
(index0, index1) pair either continues the open polyline (when index0 equals
its last entry) or flushes it and opens a new one. -/
def polylinePairsLoop : List (Nat × Nat) → List Nat → List (List Nat) →
    (List (List Nat) × List Nat)
  | [], acc, pls => (pls, acc)
  | (i0, i1) :: rest, acc, pls =>
    if acc.length = 0 ∨ acc.getLast? ≠ some i0 then
      let pls' := if acc.length ≠ 0 then pls ++ [acc] else pls
      polylinePairsLoop rest [i0, i1] pls'
    else
      polylinePairsLoop rest (acc ++ [i1]) pls

/-- `GltfReader.readPolylines`: read the index accessor at 32-bit width;
disjoint (point) primitives copy the whole list, polylines merge index
pairs. An odd index count makes the source read one element past the end
(`undefined`, then NaN); modelled by a trailing 0. -/
def readPolylines (r : GltfReader) (polylines : List (List Nat)) (json : GltfMeshPrimitive)
    (accessorName : String) (disjoint : Bool) : Option (List (List Nat)) :=
  match readBufferData32 r (primitiveJson json) accessorName with
  | none => none
  | some data =>
    let vals := dataBufferNat data.buffer
    if disjoint then
      some (polylines ++ [(List.range data.count).map (natAt vals)])
    else
      let iters := (data.count + 1) / 2
      let pairs := (List.range iters).map (fun k => (natAt vals (2 * k), natAt vals (2 * k + 1)))
      let (pls, acc) := polylinePairsLoop pairs [] polylines
      some (if acc.length ≠ 0 then pls ++ [acc] else pls)

/-- `GltfReader.deduplicateVertices`: expand each index occurrence into its
own vertex slot and renumber indices sequentially; the index array is
widened to 32 bits when its length exceeds the current width. -/
def deduplicateVertices (mesh : GltfMeshData) : Option GltfMeshData :=
  match mesh.points, mesh.indices with
  | some pts, some idx =>
    let numPoints := idx.vals.length
    let width : IndexWidth :=
      match idx.width with
      | .u16 => if numPoints > 65535 then .u32 else .u16
      | .u8 => if numPoints > 255 then .u32 else .u8
      | .u32 => .u32
    let newIndices : MeshIndices := ⟨width, List.range numPoints⟩
    let newPoints := (List.range numPoints).flatMap (fun i =>
      let index := natAt idx.vals i
      [natAt pts (index * 3), natAt pts (index * 3 + 1), natAt pts (index * 3 + 2)])
    let newNormals := mesh.normals.map (fun ns =>
      (List.range numPoints).map (fun i => natAt ns (natAt idx.vals i)))
    let newUvs := mesh.uvs.map (fun uv =>
      (List.range numPoints).flatMap (fun i =>
        let index := natAt idx.vals i
        [natAt uv (index * 2), natAt uv (index * 2 + 1)]))
    some { mesh with
            indices := some newIndices
            points := some newPoints
            normals := newNormals
            uvs := newUvs }
  | _, _ => none

/-- `GltfReader.readDracoMeshPrimitive`: only decoded triangle-list meshes
with whole triangles and whole 3d positions are accepted; positions are
quantized against the decoder's bounding box (or a scan), normals are
oct-encoded when their length is divisible by 3, UVs are taken unquantized
(note the source's `(uvs.length & 2) === 0` bitwise test), and batch ids
become feature indices when a feature table is present. -/
def readDracoMeshPrimitive (r : GltfReader) (mesh : MeshPrimitiveModel)
    (ext : DracoMeshCompression) : Option MeshPrimitiveModel :=
  match (r.dracoMeshes.find? (fun p => p.1 = ext)).map (·.2) with
  | none => none
  | some draco =>
    if draco.topology ≠ "triangle-list" then none
    else
      match draco.indices with
      | none => none
      | some idx =>
        if idx.length % 3 ≠ 0 then none
        else
          match draco.position with
          | none => none
          | some pos =>
            if pos.length % 3 ≠ 0 then none
            else
              let tris := (List.range (idx.length / 3)).map (fun k =>
                (natAt idx (3 * k), natAt idx (3 * k + 1), natAt idx (3 * k + 2)))
              let posRange : Range3 :=
                match draco.boundingBox with
                | some (lo, hi) =>
                  some (⟨lo.1, lo.2.1, lo.2.2⟩, ⟨hi.1, hi.2.1, hi.2.2⟩)
                | none =>
                  (List.range (pos.length / 3)).foldl (fun acc k =>
                    range3ExtendXYZ acc (f32At pos (3 * k)) (f32At pos (3 * k + 1))
                      (f32At pos (3 * k + 2))) none
              let params := qParams3FromRange posRange
              let qpts := (List.range (pos.length / 3)).flatMap (fun k =>
                qPoint3 ⟨f32At pos (3 * k), f32At pos (3 * k + 1), f32At pos (3 * k + 2)⟩ params)
              let normals :=
                match draco.normal with
                | some ns =>
                  if ns.length % 3 = 0 then
                    (List.range (ns.length / 3)).map (fun k =>
                      octEncode16 ⟨f32At ns (3 * k), f32At ns (3 * k + 1), f32At ns (3 * k + 2)⟩)
                  else []
                | none => []
              let uvParams :=
                match draco.texcoord0 with
                | some uvs =>
                  if Nat.land uvs.length 2 = 0 then
                    (List.range (uvs.length / 2)).map (fun k =>
                      (⟨f32At uvs (2 * k), f32At uvs (2 * k + 1)⟩ : Vec2))
                  else []
                | none => []
              let featureIndices :=
                match draco.batchIds with
                | some bs => if mesh.hasFeatures then some bs else mesh.featureIndices
                | none => mesh.featureIndices
              some { mesh with
                      triangles := mesh.triangles ++ tris
                      pointsParams := some params
                      qpoints := mesh.qpoints ++ qpts
                      normalsList := mesh.normalsList ++ normals
                      uvParams := mesh.uvParams ++ uvParams
                      featureIndices := featureIndices }

/-- Whether a material carries `KHR_materials_unlit`. -/
def materialHasUnlit : GltfMaterial → Bool
  | .gltf1 _ => false
  | .gltf2 m => ((m.extensions.map (·.khrMaterialsUnlit)).getD false)

/-- The `texStep` used for `_COLORINDEX` UVs. -/
def materialTexStep : GltfMaterial → Option (List ℚ)
  | .gltf1 m => m.values.bind (·.texStep)
  | .gltf2 m => ((m.extensions.bind (·.khrTechniquesWebgl)).bind (·.values)).bind (·.u_texStep)

/-- `QPoint2dList.fromPoints` followed by `toTypedArray`: the 2d range of the
points, its params, and each point quantized. -/
def qPoint2ListFromPoints (pts : List Vec2) : QParams2 × List Nat :=
  let range := pts.foldl (fun acc p => range2ExtendXY acc p.x p.y) none
  let params := qParams2FromRange range
  (params, pts.flatMap (fun p =>
    [qQuantize p.x params.origin.x params.scale.x, qQuantize p.y params.origin.y params.scale.y]))

/-- The JSON object of a `CESIUM_primitive_outline` extension as passed to
`readBufferData32(ext, "indices")`. -/
def outlineJson (o : CesiumPrimitiveOutline) : GltfDictionary GltfId :=
  match o.indices with
  | some i => [("indices", i)]
  | none => []

/-- `GltfReader.readMeshPrimitive`. Every early `return undefined` of the
source is a `none`; the `mesh` rebindings model the source's in-place
mutation of the `GltfMeshData`. `featureTable` is the presence of the
feature table argument. -/
def readMeshPrimitive (r : GltfReader) (primitive : GltfMeshPrimitive) (featureTable : Bool)
    (pseudoRtcBias : Option Vec3) : Option GltfMeshData :=
  let materialName := primitive.material.getD ""
  let material? : Option GltfMaterial :=
    if 0 < materialName.length then dictLookup r.glTF.materials materialName
    else some (.gltf2 {})
  match material? with
  | none => none
  | some material =>
    let hasBakedLighting :=
      (dictLookup primitive.attributes "NORMAL") = none ∨ materialHasUnlit material = true
    match createDisplayParams r material hasBakedLighting with
    | none => none
    | some displayParams =>
      let meshMode := primitive.mode.getD 4
      match (match meshMode with
             | 1 => some MeshPrimitiveType.polyline
             | 0 => some MeshPrimitiveType.point
             | 4 => some MeshPrimitiveType.mesh
             | _ => none) with
      | none => none
      | some primitiveType =>
        let meshPrimitive : MeshPrimitiveModel :=
          { type := primitiveType
            displayParams := displayParams
            hasFeatures := featureTable
            isVolumeClassifier := false
            is2d := false
            colorMapFill := some displayParams.fillColor
            polylines := if primitiveType ≠ .mesh then some [] else none }
        let mesh : GltfMeshData := { primitive := meshPrimitive }
        let mesh :=
          match readBufferData16 r primitive.attributes "_COLORINDEX" with
          | none => mesh
          | some colorIndices =>
            match materialTexStep material with
            | none => mesh
            | some texStep =>
              let vals := dataBufferNat colorIndices.buffer
              let uvPts := (List.range colorIndices.count).map (fun i =>
                (⟨qAt texStep 1 + qAt texStep 0 * (natAt vals i : ℚ), 1 / 2⟩ : Vec2))
              let pr := qPoint2ListFromPoints uvPts
              { mesh with uvs := some pr.2, uvQParams := some pr.1 }
        match primitive.extensions.bind (·.khrDracoMeshCompression) with
        | some draco =>
          match readDracoMeshPrimitive r mesh.primitive draco with
          | some mp => some { mesh with primitive := mp }
          | none => none
        | none =>
          match readVertices r mesh primitive pseudoRtcBias with
          | none => none
          | some mesh =>
            let afterType : Option GltfMeshData :=
              match primitiveType with
              | .mesh =>
                match readMeshIndices r mesh primitive with
                | none => none
                | some mesh =>
                  match (if displayParams.ignoreLighting then some mesh
                         else readNormals r mesh primitive.attributes "NORMAL") with
                  | none => none
                  | some mesh =>
                    let mesh :=
                      if mesh.uvs = none then
                        let texCoordIndex : Nat :=
                          match material with
                          | .gltf2 m2 =>
                            (((m2.pbrMetallicRoughness.bind (·.baseColorTexture)).bind
                              (·.texCoord))).getD 0
                          | .gltf1 _ => 0
                        match readUVParams r mesh primitive.attributes
                            ("TEXCOORD_" ++ toString texCoordIndex) with
                        | some m => m
                        | none => mesh
                      else mesh
                    if r.deduplicateVertices then deduplicateVertices mesh
                    else some mesh
              | .polyline | .point =>
                match mesh.primitive.polylines with
                | none => some mesh
                | some pls =>
                  match readPolylines r pls primitive "indices"
                      (primitiveType = MeshPrimitiveType.point) with
                  | none => none
                  | some pls2 =>
                    some { mesh with primitive := { mesh.primitive with polylines := some pls2 } }
            match afterType with
            | none => none
            | some mesh =>
              if displayParams.textureMapping.isSome ∧ mesh.uvs = none then none
              else
                let mesh :=
                  match primitive.extensions.bind (·.cesiumPrimitiveOutline) with
                  | none => mesh
                  | some outl =>
                    match readBufferData32 r (outlineJson outl) "indices" with
                    | none => mesh
                    | some data =>
                      let vals := dataBufferNat data.buffer
                      let iters := (data.count + 1) / 2
                      let edges := (List.range iters).map (fun k =>
                        (natAt vals (2 * k), natAt vals (2 * k + 1)))
                      { mesh with primitive := { mesh.primitive with edges := some edges } }
                some mesh

/-- `GltfReader.readMeshPrimitives`: read every primitive of every mesh of
the node, skipping failed ones, and (when the content range is being
computed) merge each read mesh's point range — inverse-transformed into the
content coordinate space — into the accumulator: the body of the inner
primitive loop of `readMeshPrimitives`. -/
def readMeshPrimitivesStep (r : GltfReader) (featureTable : Bool)
    (thisTransform : Option Transform) (thisBias : Option Vec3) (computedActive : Bool)
    (st : List GltfMeshData × Range3) (primitive : GltfMeshPrimitive) :
    List GltfMeshData × Range3 :=
  match readMeshPrimitive r primitive featureTable thisBias with
  | none => st
  | some mesh =>
    let acc2 :=
      if computedActive then
        match mesh.pointRange with
        | none => st.2
        | some pr =>
          let invTransform := thisTransform.bind transformInverse
          let meshRange :=
            match invTransform with
            | some it => transformMultiplyRange it pr
            | none => pr
          range3ExtendRange st.2 meshRange
      else st.2
    (st.1 ++ [mesh], acc2)

/-- The mesh-id loop of `readMeshPrimitives` (see `readMeshPrimitivesStep`
for the per-primitive body). -/
def readMeshPrimitives (r : GltfReader) (node : GltfNode) (featureTable : Bool)
    (thisTransform : Option Transform) (thisBias : Option Vec3)
    (computedActive : Bool) (acc : Range3) : List GltfMeshData × Range3 :=
  (getGltfNodeMeshIds node).foldl (fun st meshKey =>
    match (dictLookup r.glTF.meshes meshKey).bind (·.primitives) with
    | none => st
    | some prims =>
      prims.foldl (readMeshPrimitivesStep r featureTable thisTransform thisBias computedActive)
        st) ([], acc)

/-- Terminal status of a read (`TileReadStatus`, restricted to the values the
reader produces). -/
inductive TileReadStatus where
  | success
  | invalidTileData
  | canceled
  deriving DecidableEq, Repr

/-- An opaque renderer graphic handle: the renderer (an external collaborator
per the spec) returns opaque handles, modelled by the request that produced
them. -/
inductive Graphic where
  | primitive (mesh : MeshPrimitiveModel)
  | realityMesh (mesh : GltfMeshData)
  | list (gs : List Graphic)
  | branch (transform : Transform) (g : Graphic)
  | batch (g : Graphic) (range : Range3)

/-- `Quantization.unquantize`. -/
def qUnquantize (v : Nat) (origin scale : ℚ) : ℚ :=
  if scale = 0 then origin else origin + (v : ℚ) / scale

/-- Modelled from the spec: `RealityMeshParams.fromGltfMesh` (render) is not
under `src/`; a mesh is suitable for the direct reality-mesh path when it is
already in the quantized format (quantized points and UVs with their params,
plus indices). -/
def realityMeshParamsFromGltfMesh (mesh : GltfMeshData) : Option GltfMeshData :=
  match mesh.pointQParams, mesh.points, mesh.uvQParams, mesh.uvs, mesh.indices with
  | some _, some _, some _, some _, some _ => some mesh
  | _, _, _, _, _ => none

/-- `GltfReader.graphicFromMeshData`: without points/range, hand the
primitive to the renderer directly; otherwise try the reality-mesh path
(unless a vertex table is required or instancing is requested), falling back
to populating the primitive from the quantized data. The renderer is
abstracted as always producing a handle. -/
def graphicFromMeshData (r : GltfReader) (gltfMesh : GltfMeshData) (instances : Bool) :
    Option Graphic :=
  match gltfMesh.points, gltfMesh.pointRange with
  | some pts, some pointRange =>
    let realityMeshPrimitive :=
      if r.vertexTableRequired ∨ instances then none
      else realityMeshParamsFromGltfMesh gltfMesh
    match realityMeshPrimitive with
    | some rp => some (.realityMesh rp)
    | none =>
      let pointCount := pts.length / 3
      let prim := gltfMesh.primitive
      let prim := { prim with
                     pointsParams := some (qParams3FromRange pointRange)
                     qpoints := pts }
      let prim :=
        match gltfMesh.indices with
        | some idx =>
          if prim.type = .mesh then
            { prim with
               triangles := prim.triangles ++ (List.range (idx.vals.length / 3)).map (fun k =>
                 (natAt idx.vals (3 * k), natAt idx.vals (3 * k + 1), natAt idx.vals (3 * k + 2))) }
          else prim
        | none => prim
      let prim :=
        match gltfMesh.uvs, gltfMesh.uvRange, gltfMesh.uvQParams with
        | some uvs, some _, some params =>
          { prim with
             uvParams := prim.uvParams ++ (List.range pointCount).map (fun i =>
               (⟨qUnquantize (natAt uvs (2 * i)) params.origin.x params.scale.x,
                 qUnquantize (natAt uvs (2 * i + 1)) params.origin.y params.scale.y⟩ : Vec2)) }
        | _, _, _ => prim
      let prim :=
        match gltfMesh.normals with
        | some ns => { prim with normalsList := prim.normalsList ++ ns }
        | none => prim
      some (.primitive prim)
  | _, _ => some (.primitive gltfMesh.primitive)

/-- The per-node pseudo-RTC bias (`thisTransform.matrix.multiplyInverse`,
`undefined` for a singular matrix). -/
def nodeBias (thisTransform : Option Transform) (pseudoRtcBias : Option Vec3) : Option Vec3 :=
  match pseudoRtcBias with
  | none => none
  | some b =>
    match thisTransform with
    | none => some b
    | some tr => (mat3Inv tr.matrix).map (fun mi => mat3MulVec mi b)

/-- The mesh loop of `readNodeAndCreateGraphics`: for every mesh id of the
node whose mesh has primitives, read the node's primitives (the source
re-reads all of the node's meshes each iteration, which is preserved here),
combine them into one graphic, wrap it in a branch when a non-identity
transform is active, and append it. -/
def readNodeMeshes (r : GltfReader) (node : GltfNode) (featureTable : Bool)
    (thisTransform : Option Transform) (thisBias : Option Vec3) (instances : Bool)
    (computedActive : Bool) (gl : List Graphic) (acc : Range3) : List Graphic × Range3 :=
  (getGltfNodeMeshIds node).foldl (fun (st : List Graphic × Range3) meshKey =>
    match (dictLookup r.glTF.meshes meshKey).bind (·.primitives) with
    | none => st
    | some _ =>
      let mr := readMeshPrimitives r node featureTable thisTransform thisBias computedActive st.2
      let meshes := mr.1
      let renderGraphic : Option Graphic :=
        if meshes.length ≠ 0 then
          match meshes with
          | [m] => graphicFromMeshData r m instances
          | _ =>
            let thisList := meshes.filterMap (fun m => graphicFromMeshData r m instances)
            if thisList.length ≠ 0 then some (.list thisList) else none
        else none
      match renderGraphic with
      | none => (st.1, mr.2)
      | some g =>
        let g :=
          match thisTransform with
          | some tt => if tt ≠ transformIdentity then Graphic.branch tt g else g
          | none => g
        (st.1 ++ [g], mr.2)) (gl, acc)

mutual

/-- `GltfReader.readNodeAndCreateGraphics`, with explicit fuel (`none` is
fuel exhaustion; fuel is consumed per node entry and per child step, and
`readNodeGraphicsFuel` below always suffices on documents where the
recursion completes — the source recursion has no cycle detection, so on a
cyclic node graph no amount of fuel completes, see `c2DivergenceAux`). The
graphics list and the computed content range are threaded through; the
status returned by child reads is discarded, exactly as in the source. -/
def readNodeAndCreateGraphicsF (r : GltfReader) (featureTable : Bool) (instances : Bool) :
    Nat → Option GltfNode → List Graphic → TransformStack → Option Vec3 → Bool →
    Range3 → Option (List Graphic × TileReadStatus × Range3)
  | 0, _, _, _, _, _, _ => none
  | _ + 1, none, gl, _, _, _, acc => some (gl, .invalidTileData, acc)
  | fuel + 1, some node, gl, transformStack, pseudoRtcBias, computedActive, acc =>
    let stack1 := transformStackPush transformStack node
    let thisTransform := stackTransform stack1
    let thisBias := nodeBias thisTransform pseudoRtcBias
    let st := readNodeMeshes r node featureTable thisTransform thisBias instances
      computedActive gl acc
    match readNodeChildrenF r featureTable instances fuel (node.children.getD []) st.1 stack1
        computedActive st.2 with
    | none => none
    | some (gl2, acc2) => some (gl2, .success, acc2)

/-- The children loop of `readNodeAndCreateGraphics`: recurse into each found
child (without the pseudo-RTC bias, which the source drops for children). -/
def readNodeChildrenF (r : GltfReader) (featureTable : Bool) (instances : Bool) :
    Nat → List GltfId → List Graphic → TransformStack → Bool → Range3 →
    Option (List Graphic × Range3)
  | _, [], gl, _, _, acc => some (gl, acc)
  | 0, _ :: _, _, _, _, _ => none
  | fuel + 1, childId :: rest, gl, stack1, computedActive, acc =>
    match dictLookup r.glTF.nodes childId with
    | none => readNodeChildrenF r featureTable instances fuel rest gl stack1 computedActive acc
    | some child =>
      match readNodeAndCreateGraphicsF r featureTable instances fuel (some child) gl stack1 none
          computedActive acc with
      | none => none
      | some (gl2, _, acc2) =>
        readNodeChildrenF r featureTable instances fuel rest gl2 stack1 computedActive acc2

end

/-- Exact rotation of π/2 around the x axis (`Matrix3d.createRotationAroundVector`
with `Angle.piOver2`; the JavaScript evaluation carries ~1e-17 rounding noise
in the cosine entries, which the exact matrix abstracts away). -/
def yAxisUpMatrix : Mat3 := ⟨1, 0, 0, 0, 0, -1, 0, 1, 0⟩

/-- `GltfReader.getTileTransform`. -/
def getTileTransform (r : GltfReader) (transformToRoot : Option Transform)
    (pseudoRtcBias : Option Vec3) : Option Transform :=
  if r.returnToCenter.isSome ∨ pseudoRtcBias.isSome ∨ r.yAxisUp ∨ transformToRoot.isSome then
    let transform :=
      match r.returnToCenter with
      | some c => transformTranslation ⟨c.1, c.2.1, c.2.2⟩
      | none =>
        match pseudoRtcBias with
        | some b => transformTranslation b
        | none => transformIdentity
    let transform :=
      if r.yAxisUp then transformMul transform ⟨⟨0, 0, 0⟩, yAxisUpMatrix⟩ else transform
    let transform :=
      match transformToRoot with
      | some t2r => transformMul t2r transform
      | none => transform
    some transform
  else none

/-- The result of `GltfReader.read` (`GltfReaderResult`), restricted to the
fields the reader assigns. -/
structure GltfReaderResult where
  readStatus : TileReadStatus
  isLeaf : Bool
  contentRange : Option Range3 := none
  graphic : Option Graphic := none

/-- The scene-node loop of `readGltfAndCreateGraphics`: process each scene
root with a fresh-empty transform stack, returning early when a node read
reports a non-success status (`Sum.inl`). -/
def sceneNodesLoopF (r : GltfReader) (fuel : Nat) (featureTable : Bool) (instances : Bool)
    (pseudoRtcBias : Option Vec3) (computedActive : Bool) :
    List GltfId → List Graphic → Range3 → TileReadStatus →
    Option (TileReadStatus ⊕ (List Graphic × Range3 × TileReadStatus))
  | [], gl, acc, status => some (.inr (gl, acc, status))
  | nodeKey :: rest, gl, acc, status =>
    match dictLookup r.glTF.nodes nodeKey with
    | none =>
      sceneNodesLoopF r fuel featureTable instances pseudoRtcBias computedActive rest gl acc status
    | some node =>
      match readNodeAndCreateGraphicsF r featureTable instances fuel (some node) gl []
          pseudoRtcBias computedActive acc with
      | none => none
      | some (gl2, status2, acc2) =>
        if status2 ≠ .success then some (.inl status2)
        else
          sceneNodesLoopF r fuel featureTable instances pseudoRtcBias computedActive rest gl2
            acc2 status2

/-- `GltfReader.readGltfAndCreateGraphics`, with explicit fuel for the node
recursion. Besides the source's result record, the list of per-node graphics
collected in `renderGraphicList` is returned for specification purposes.
`featureTable0`/`instances` model the presence of those optional arguments. -/
def readGltfAndCreateGraphicsF (r : GltfReader) (fuel : Nat) (isLeaf : Bool)
    (featureTable : Bool) (contentRange : Option Range3) (transformToRoot : Option Transform)
    (pseudoRtcBias : Option Vec3) (instances : Bool) :
    Option (GltfReaderResult × List Graphic) :=
  if r.canceled then some ({ readStatus := .canceled, isLeaf := isLeaf }, [])
  else
    let computedActive := contentRange = none
    let contentRange0 : Range3 := (contentRange.getD none)
    let nodes0matrix := (dictLookup r.glTF.nodes "0").bind (·.matrix)
    let biasSmall : Bool :=
      match pseudoRtcBias with
      | some b => decide (b.x ^ 2 + b.y ^ 2 + b.z ^ 2 < 10 ^ 10)
      | none => false
    let pseudoRtcBias :=
      if r.returnToCenter.isSome || nodes0matrix.isSome || biasSmall then none
      else pseudoRtcBias
    match sceneNodesLoopF r fuel featureTable instances pseudoRtcBias computedActive
        r.sceneNodes [] contentRange0 .invalidTileData with
    | none => none
    | some (.inl status) => some ({ readStatus := status, isLeaf := isLeaf }, [])
    | some (.inr (gl, acc, status)) =>
      if gl.length = 0 then some ({ readStatus := .invalidTileData, isLeaf := isLeaf }, gl)
      else
        let renderGraphic :=
          match gl with
          | [g] => g
          | _ => Graphic.list gl
        let transform := getTileTransform r transformToRoot pseudoRtcBias
        let contentRangeFinal := if computedActive then acc else contentRange0
        let range :=
          match transform.bind transformInverse with
          | some inv => transformMultiplyRange inv contentRangeFinal
          | none => contentRangeFinal
        let renderGraphic :=
          if featureTable then Graphic.batch renderGraphic range else renderGraphic
        let renderGraphic :=
          match transform with
          | some t => Graphic.branch t renderGraphic
          | none => renderGraphic
        some ({ readStatus := status, isLeaf := isLeaf, contentRange := some contentRangeFinal,
                graphic := some renderGraphic }, gl)

/-- A parsed JSON value (the `GltfDocument` input of `GltfReaderProps.create`
before normalization). -/
inductive Json where
  | null
  | bool (b : Bool)
  | num (q : ℚ)
  | str (s : String)
  | arr (items : List Json)
  | obj (fields : List (String × Json))

/-- JavaScript property access on a parsed JSON value; absent properties and
non-object receivers give `undefined`, modelled as `Json.null` (the reader
only ever passes the result to the `JsonUtils.as*` coercers, which treat
`null` and `undefined` alike). -/
def jsonGet (j : Json) (k : String) : Json :=
  match j with
  | .obj fields => ((fields.find? (fun p => p.1 = k)).map (·.2)).getD .null
  | _ => .null

/-- `JsonUtils.asObject` (core-bentley, not under `src/`; standard semantics):
the value itself when it is a truthy `typeof "object"` value — a plain object
or an array — else `undefined`. -/
def jsonAsObject : Json → Option Json
  | .arr l => some (.arr l)
  | .obj f => some (.obj f)
  | _ => none

/-- `JsonUtils.asArray`. -/
def jsonAsArray : Json → Option (List Json)
  | .arr l => some l
  | _ => none

/-- `JsonUtils.asString`, restricted to string inputs (numeric scene ids
stringify; no claim distinguishes that case). -/
def jsonAsString : Json → Option String
  | .str s => some s
  | _ => none

/-- The normalized document assembled by `GltfReaderProps.create` (each field
the result of the corresponding `JsonUtils` coercion). -/
structure GltfJsonDocument where
  asset : Option Json
  scene : Option String
  extensions : Option Json
  extensionsUsed : Option (List Json)
  extensionsRequired : Option (List Json)
  accessors : Option Json
  buffers : Option Json
  bufferViews : Option Json
  images : Option Json
  materials : Option Json
  meshes : Option Json
  nodes : Option Json
  samplers : Option Json
  scenes : Option Json
  textures : Option Json
  techniques : Option Json

/-- The data of a constructed `GltfReaderProps`. -/
structure GltfReaderPropsModel where
  glTF : GltfJsonDocument
  version : Nat
  yAxisUp : Bool

/-- `GltfReaderProps.create` on an already-parsed document (the third input
form; byte inputs — GLB container or UTF-8 JSON — are parsed by code outside
`src/` and then flow through exactly this normalization and gating code,
with `version` taken from the GLB header instead of the fixed 2). -/
def gltfReaderPropsCreate (source : Json) (yAxisUp : Bool := false) :
    Option GltfReaderPropsModel :=
  let version : Nat := 2
  let asset := jsonAsObject (jsonGet source "asset")
  if version = 2 ∧ asset.isNone then none
  else
    let glTF : GltfJsonDocument :=
      { asset := asset
        scene := jsonAsString (jsonGet source "scene")
        extensions := jsonAsObject (jsonGet source "extensions")
        extensionsUsed := jsonAsArray (jsonGet source "extensionsUsed")
        extensionsRequired := jsonAsArray (jsonGet source "extensionsRequired")
        accessors := jsonAsObject (jsonGet source "accessors")
        buffers := jsonAsObject (jsonGet source "buffers")
        bufferViews := jsonAsObject (jsonGet source "bufferViews")
        images := jsonAsObject (jsonGet source "images")
        materials := jsonAsObject (jsonGet source "materials")
        meshes := jsonAsObject (jsonGet source "meshes")
        nodes := jsonAsObject (jsonGet source "nodes")
        samplers := jsonAsObject (jsonGet source "samplers")
        scenes := jsonAsObject (jsonGet source "scenes")
        textures := jsonAsObject (jsonGet source "textures")
        techniques := jsonAsObject (jsonGet source "techniques") }
    if glTF.meshes.isSome then some ⟨glTF, version, yAxisUp⟩ else none

/-- The accessor lookup prefix of `getBufferView` (source lines resolving
`json[accessorName]` to an accessor). -/
def accessorOf (r : GltfReader) (json : GltfDictionary GltfId) (accessorName : String) :
    Option GltfAccessor :=
  let accessorValue := (dictLookup json accessorName).getD ""
  if accessorValue ≠ "" then dictLookup r.glTF.accessors accessorValue else none

/-- The buffer-view lookup step of `getBufferView`. -/
def bufferViewPropsOf (r : GltfReader) (acc : GltfAccessor) : Option GltfBufferViewProps :=
  acc.bufferView.bind (fun bvId => dictLookup r.glTF.bufferViews bvId)

/-- The resolved-buffer lookup step of `getBufferView`. -/
def resolvedBufferOf (r : GltfReader) (bv : GltfBufferViewProps) : Option (List Nat) :=
  bv.buffer.bind (fun b => (dictLookup r.glTF.buffers b).bind (·.resolvedBuffer))

/-- The failure conditions of buffer-view resolution as the claim enumerates
them: missing accessor; missing buffer view or unresolved buffer;
unsupported component type. -/
def bufferViewLookupFails (r : GltfReader) (json : GltfDictionary GltfId)
    (accessorName : String) : Bool :=
  match accessorOf r json accessorName with
  | none => true
  | some acc =>
    match (bufferViewPropsOf r acc).bind (resolvedBufferOf r) with
    | none => true
    | some _ => (componentDataSize acc.componentType).isNone

/-- The claim's byte-stride formula ("the buffer view's explicit byteStride
when present, otherwise vector arity times component byte size"), written
from the spec for comparison with the code. -/
def specByteStride (bv : GltfBufferViewProps) (arity dataSize : Nat) : Nat :=
  match bv.byteStride with
  | some s => s
  | none => arity * dataSize

/-- Accessor of the C4 counterexample: its byte offset lies far beyond the
four resolved bytes. -/
def c4cxAccessor : GltfAccessor :=
  { bufferView := some "bv", byteOffset := some 100, componentType := .unsignedByte, count := 1 }

/-- Reader of the C4 counterexample. -/
def c4cxReader : GltfReader :=
  { glTF := { accessors := [("a", c4cxAccessor)]
              bufferViews := [("bv", { buffer := some "b" })]
              buffers := [("b", { resolvedBuffer := some [1, 2, 3, 4] })] } }

/-- Accessor of the C5 counterexample (VEC2 of unsigned shorts). -/
def c5cxAccessor : GltfAccessor :=
  { bufferView := some "bv", componentType := .unsignedShort, count := 2, type := "VEC2" }

/-- Buffer view of the C5 counterexample: an explicit `byteStride` of 0. -/
def c5cxBufferView : GltfBufferViewProps :=
  { buffer := some "b", byteStride := some 0 }

/-- Reader of the C5 counterexample. -/
def c5cxReader : GltfReader :=
  { glTF := { accessors := [("a", c5cxAccessor)]
              bufferViews := [("bv", c5cxBufferView)]
              buffers := [("b", { resolvedBuffer := some [1, 2, 3, 4, 5, 6, 7, 8] })] } }

/-- Document of the C10 counterexample: a well-formed asset whose `meshes`
dictionary is present but empty (zero meshes). -/
def c10cxDoc : Json :=
  .obj [("asset", .obj [("version", .str "2.0")]), ("meshes", .obj [])]

/-- Document for the C10 witness: a well-formed asset with no `meshes`
entry at all. -/
def c10wDoc : Json :=
  .obj [("asset", .obj [("version", .str "2.0")])]

/-- The claim's base-color precedence chain, written from the spec for
comparison: legacy explicit color values, else modern technique `u_color`,
else PBR base-color factor, else opaque white. -/
def specBaseColor (material : GltfMaterial) : ColorDefQ :=
  match (match material with
         | .gltf1 m => m.values.bind (·.color)
         | .gltf2 _ => none) with
  | some arr => colorFromJson arr
  | none =>
    match (match material with
           | .gltf2 m => ((m.extensions.bind (·.khrTechniquesWebgl)).bind (·.values)).bind
               (·.u_color)
           | .gltf1 _ => none) with
    | some arr => colorFromJson arr
    | none =>
      match (match material with
             | .gltf2 m => m.pbrMetallicRoughness.bind (·.baseColorFactor)
             | .gltf1 _ => none) with
      | some arr => colorFromJson arr
      | none => colorWhite

/-- Nodes of the C1 counterexample: node 0 has child 1; node 1 is also a
root. Two distinct, non-overlapping root-to-leaf paths reach node 1; there
is no cycle. -/
def c1cxNodes : GltfDictionary GltfNode :=
  [("0", { children := some ["1"] }), ("1", {})]

/-- Reader of the C1 counterexample. -/
def c1cxReader : GltfReader :=
  { glTF := { nodes := c1cxNodes }, sceneNodes := ["0", "1"] }

/-- Reader of the C1 witness: a single root with no children. -/
def c1wReader : GltfReader :=
  { glTF := { nodes := [("0", {})] }, sceneNodes := ["0"] }

/-- Node of the C2 counterexample: a self-loop. -/
def c2cxNode : GltfNode := { children := some ["0"] }

/-- Node dictionary of the C2 counterexample. -/
def c2cxNodes : GltfDictionary GltfNode := [("0", c2cxNode)]

/-- Reader of the C2 counterexample. -/
def c2cxReader : GltfReader :=
  { glTF := { nodes := c2cxNodes }, sceneNodes := ["0"] }

/-- Termination of the graphics-producing node recursion on a node: some
fuel makes it complete. -/
def NodeGraphicsTerminates (r : GltfReader) (node : GltfNode) : Prop :=
  ∃ fuel,
    (readNodeAndCreateGraphicsF r false false fuel (some node) [] [] none true none).isSome

/-- Display parameters used by the C6 example mesh. -/
def c6dpWhite : DisplayParams :=
  { fillColor := colorWhite, lineColor := colorWhite, hasBakedLighting := true,
    textureMapping := none, hasRenderMaterial := false }

/-- Mesh data of the C6 input: a non-indexed triangle primitive whose four
quantized points occupy twelve scalar array entries. -/
def c6mesh : GltfMeshData :=
  { primitive := { type := .mesh, displayParams := c6dpWhite }
    points := some (List.replicate 12 0) }

/-- An empty-document reader. -/
def emptyReader : GltfReader := { glTF := {} }

/-- Primitive of the C8 witness: one float POSITION accessor, no indices. -/
def c8prim : GltfMeshPrimitive := { attributes := [("POSITION", "a")] }

/-- Node of the C8 witness. -/
def c8node : GltfNode := { mesh := some "m" }

/-- Accessor of the C8 witness: three VEC3 float elements. -/
def c8accessor : GltfAccessor :=
  { bufferView := some "bv", componentType := .float, count := 3, type := "VEC3" }

/-- Bytes of the C8 witness: the little-endian float32 triangle
(0,0,0), (1,0,0), (0,1,0). -/
def c8bytes : List Nat :=
  [0, 0, 0, 0, 0, 0, 0, 0, 0, 0, 0, 0,
   0, 0, 128, 63, 0, 0, 0, 0, 0, 0, 0, 0,
   0, 0, 0, 0, 0, 0, 128, 63, 0, 0, 0, 0]

/-- Reader of the C8 witness: one scene root whose mesh has one triangle
primitive, with the vertex-table path forced (as `readGltfGraphics` does). -/
def c8reader : GltfReader :=
  { glTF := { nodes := [("0", c8node)]
              meshes := [("m", { primitives := some [c8prim] })]
              accessors := [("a", c8accessor)]
              bufferViews := [("bv", { buffer := some "b" })]
              buffers := [("b", { resolvedBuffer := some c8bytes })] }
    sceneNodes := ["0"]
    vertexTableRequired := true }

/-- A successful lookup puts the key among the dictionary keys. -/
theorem dictLookup_mem_keys {α : Type} {d : GltfDictionary α} {k : String} {v : α}
    (h : dictLookup d k = some v) : k ∈ dictKeys d := by
  unfold dictLookup at h
  cases hf : d.find? (fun p => p.1 = k) with
  | none => rw [hf] at h; cases h
  | some p =>
    have hp := List.find?_some hf
    have hmem := List.mem_of_find?_eq_some hf
    have : p.1 = k := by simpa using hp
    subst this
    exact List.mem_map.mpr ⟨p, hmem, rfl⟩

/-- A successful lookup returns a pair of the underlying list. -/
theorem dictLookup_mem {α : Type} {d : GltfDictionary α} {k : String} {v : α}
    (h : dictLookup d k = some v) : (k, v) ∈ d := by
  unfold dictLookup at h
  cases hf : d.find? (fun p => p.1 = k) with
  | none => rw [hf] at h; cases h
  | some p =>
    have hp := List.find?_some hf
    have hmem := List.mem_of_find?_eq_some hf
    rw [hf] at h
    have h1 : p.1 = k := by simpa using hp
    have h2 : p.2 = v := by simpa using h
    have : p = (k, v) := Prod.ext h1 h2
    rwa [this] at hmem

/-- Every node in the dictionary respects the `maxChildLen` bound. -/
theorem childIds_le_maxChildLen {nodes : GltfDictionary GltfNode} {id : GltfId}
    {node : GltfNode} (h : dictLookup nodes id = some node) :
    (childIds node).length ≤ maxChildLen nodes := by
  have hmem := dictLookup_mem h
  clear h
  induction nodes with
  | nil => cases hmem
  | cons p rest ih =>
    rcases List.mem_cons.mp hmem with h | h
    · subst h
      exact le_max_left _ _
    · exact le_trans (ih h) (le_max_right _ _)

/-- A successful traversal extends the visited set by fresh, pairwise
distinct ids: the final set is the newly visited ids prepended to the
initial set. -/
theorem travOkVisited (nodes : GltfDictionary GltfNode) :
    ∀ (fuel : Nat) (ids t : List GltfId) (ys : List GltfNode) (t' : List GltfId),
      traverseNodesF nodes fuel ids t = .ok ys t' →
      ∃ u, t' = u ++ t ∧ u.Nodup ∧ ∀ x ∈ u, x ∉ t := by
  intro fuel
  induction fuel with
  | zero => intro ids t ys t' h; simp [traverseNodesF] at h
  | succ n ih =>
    intro ids t ys t' h
    match ids with
    | [] =>
      rw [traverseNodesF] at h
      cases h
      exact ⟨[], by simp, by simp, by simp⟩
    | id :: rest =>
      rw [traverseNodesF] at h
      by_cases hmem : id ∈ t
      · rw [if_pos hmem] at h; cases h
      · rw [if_neg hmem] at h
        cases hfind : dictLookup nodes id with
        | none =>
          rw [hfind] at h
          dsimp only at h
          exact ih rest t ys t' h
        | some node =>
          rw [hfind] at h
          dsimp only at h
          cases hc : traverseNodesF nodes n (childIds node) (id :: t) with
          | fuelOut => rw [hc] at h; cases h
          | cycleError => rw [hc] at h; cases h
          | ok ys2 t2 =>
            rw [hc] at h
            dsimp only at h
            cases hr : traverseNodesF nodes n rest t2 with
            | fuelOut => rw [hr] at h; cases h
            | cycleError => rw [hr] at h; cases h
            | ok zs t3 =>
              rw [hr] at h
              dsimp only at h
              cases h
              obtain ⟨u1, hu1, hu1nd, hu1nm⟩ := ih _ _ _ _ hc
              obtain ⟨u2, hu2, hu2nd, hu2nm⟩ := ih _ _ _ _ hr
              have hmem_t2 : ∀ x, x ∈ u1 ∨ x = id → x ∈ t2 := by
                intro x hx
                rw [hu1]
                rcases hx with h1 | h1
                · exact List.mem_append_left _ h1
                · exact List.mem_append_right _ (h1 ▸ List.mem_cons_self _ _)
              refine ⟨u2 ++ (u1 ++ [id]), ?_, ?_, ?_⟩
              · rw [hu2, hu1]; simp
              · rw [List.nodup_append]
                refine ⟨hu2nd, ?_, ?_⟩
                · rw [List.nodup_append]
                  refine ⟨hu1nd, List.nodup_singleton id, ?_⟩
                  intro x hx1 hx2
                  rw [List.mem_singleton] at hx2
                  subst hx2
                  exact hu1nm x hx1 (List.mem_cons_self _ _)
                · intro x hx2 hxm
                  have : x ∈ t2 := by
                    rcases List.mem_append.mp hxm with h1 | h1
                    · exact hmem_t2 x (Or.inl h1)
                    · exact hmem_t2 x (Or.inr (List.mem_singleton.mp h1))
                  exact hu2nm x hx2 this
              · intro x hx
                rcases List.mem_append.mp hx with h1 | h1
                · intro hxt
                  exact hu2nm x h1 (by rw [hu1]; exact List.mem_append_right _ (List.mem_cons_of_mem _ hxt))
                · rcases List.mem_append.mp h1 with h2 | h2
                  · intro hxt
                    exact hu1nm x h2 (List.mem_cons_of_mem _ hxt)
                  · rw [List.mem_singleton] at h2
                    subst h2
                    exact hmem

/-- Visiting a fresh dictionary node shrinks the unvisited-keys count by one. -/
theorem card_sdiff_cons (nodes : GltfDictionary GltfNode) {id : GltfId} {t : List GltfId}
    (hk : id ∈ keysFinset nodes) (hnt : id ∉ t) :
    ((keysFinset nodes) \ (id :: t).toFinset).card + 1 = ((keysFinset nodes) \ t.toFinset).card := by
  have hmem : id ∈ (keysFinset nodes) \ t.toFinset :=
    Finset.mem_sdiff.mpr ⟨hk, fun hc => hnt (List.mem_toFinset.mp hc)⟩
  rw [List.toFinset_cons, Finset.sdiff_insert, Finset.card_erase_of_mem hmem]
  have : 1 ≤ ((keysFinset nodes) \ t.toFinset).card := Finset.card_pos.mpr ⟨id, hmem⟩
  omega

/-- Growing the visited set cannot increase the unvisited-keys count. -/
theorem card_sdiff_mono (nodes : GltfDictionary GltfNode) {t t' : List GltfId}
    (h : ∀ x ∈ t, x ∈ t') :
    ((keysFinset nodes) \ t'.toFinset).card ≤ ((keysFinset nodes) \ t.toFinset).card := by
  apply Finset.card_le_card
  apply Finset.sdiff_subset_sdiff (Finset.Subset.refl _)
  intro x hx
  exact List.mem_toFinset.mpr (h x (List.mem_toFinset.mp hx))

/-- `travPotential` fuel always suffices: the fuelled traversal never runs
out. Together with `travOkVisited` this establishes that the source
generator terminates on every document, cyclic or not. -/
theorem travNoFuelOut (nodes : GltfDictionary GltfNode) :
    ∀ (fuel : Nat) (ids t : List GltfId), travPotential nodes ids t ≤ fuel →
      traverseNodesF nodes fuel ids t ≠ .fuelOut := by
  intro fuel
  induction fuel with
  | zero =>
    intro ids t hpot
    exfalso
    unfold travPotential at hpot
    omega
  | succ n ih =>
    intro ids t hpot
    match ids with
    | [] =>
      rw [traverseNodesF]
      intro hcon
      cases hcon
    | id :: rest =>
      rw [traverseNodesF]
      by_cases hmem : id ∈ t
      · rw [if_pos hmem]
        intro hcon
        cases hcon
      · rw [if_neg hmem]
        cases hfind : dictLookup nodes id with
        | none =>
          dsimp only
          apply ih
          unfold travPotential at hpot ⊢
          simp only [List.length_cons] at hpot
          omega
        | some node =>
          dsimp only
          have hk : id ∈ keysFinset nodes :=
            List.mem_toFinset.mpr (dictLookup_mem_keys hfind)
          have hcard := card_sdiff_cons nodes hk hmem
          have hchild : (childIds node).length ≤ maxChildLen nodes :=
            childIds_le_maxChildLen hfind
          have e1 : ((keysFinset nodes) \ t.toFinset).card * (2 + maxChildLen nodes)
              = ((keysFinset nodes) \ (id :: t).toFinset).card * (2 + maxChildLen nodes)
                + (2 + maxChildLen nodes) := by
            conv_lhs => rw [← hcard]
            rw [Nat.succ_mul]
          unfold travPotential at hpot
          rw [e1] at hpot
          simp only [List.length_cons] at hpot
          have hpotchild : travPotential nodes (childIds node) (id :: t) ≤ n := by
            unfold travPotential
            generalize hX : ((keysFinset nodes) \ (id :: t).toFinset).card
                * (2 + maxChildLen nodes) = X at hpot ⊢
            generalize hZ : maxChildLen nodes = Z at hchild hpot
            omega
          cases hc : traverseNodesF nodes n (childIds node) (id :: t) with
          | fuelOut => exact absurd hc (ih _ _ hpotchild)
          | cycleError =>
            intro hcon
            cases hcon
          | ok ys t2 =>
            dsimp only
            obtain ⟨u, hu, -, -⟩ := travOkVisited nodes n _ _ _ _ hc
            have hsub : ∀ x ∈ id :: t, x ∈ t2 := by
              intro x hx
              rw [hu]
              exact List.mem_append_right _ hx
            have hmono := card_sdiff_mono nodes hsub
            have hY : ((keysFinset nodes) \ t2.toFinset).card * (2 + maxChildLen nodes)
                ≤ ((keysFinset nodes) \ (id :: t).toFinset).card * (2 + maxChildLen nodes) :=
              Nat.mul_le_mul_right _ hmono
            have hpotrest : travPotential nodes rest t2 ≤ n := by
              unfold travPotential
              generalize hX : ((keysFinset nodes) \ (id :: t).toFinset).card
                  * (2 + maxChildLen nodes) = X at hpot hY
              generalize hW : ((keysFinset nodes) \ t2.toFinset).card
                  * (2 + maxChildLen nodes) = W at hY ⊢
              generalize hZ : maxChildLen nodes = Z at hpot
              omega
            cases hr : traverseNodesF nodes n rest t2 with
            | fuelOut => exact absurd hr (ih _ _ hpotrest)
            | cycleError =>
              intro hcon
              cases hcon
            | ok zs t3 =>
              intro hcon
              cases hcon

/-- The start of a reachability chain is a found node. -/
theorem Reaches.found {nodes : GltfDictionary GltfNode} {a b : GltfId}
    (h : Reaches nodes a b) : ∃ node, dictLookup nodes a = some node := by
  cases h with
  | refl a node ha => exact ⟨node, ha⟩
  | step a b c node ha hb hr => exact ⟨node, ha⟩

/-- If some id on the pending list reaches a node already in the shared
visited set, the traversal cannot succeed: it raises the cycle failure (or,
with too little fuel, runs out) before completing. -/
theorem travRevisitNotOk (nodes : GltfDictionary GltfNode) :
    ∀ (fuel : Nat) (ids t : List GltfId) (v : GltfId), v ∈ t →
      (∃ a ∈ ids, Reaches nodes a v) →
      ∀ (ys : List GltfNode) (t' : List GltfId), traverseNodesF nodes fuel ids t ≠ .ok ys t' := by
  intro fuel
  induction fuel with
  | zero =>
    intro ids t v hv hr ys t' hcon
    simp [traverseNodesF] at hcon
  | succ n ih =>
    intro ids t v hv hr ys t' hcon
    obtain ⟨a, ha, har⟩ := hr
    match ids with
    | [] => cases ha
    | nid :: rest =>
      rw [traverseNodesF] at hcon
      by_cases hmem : nid ∈ t
      · rw [if_pos hmem] at hcon
        cases hcon
      · rw [if_neg hmem] at hcon
        cases hfind : dictLookup nodes nid with
        | none =>
          rw [hfind] at hcon
          dsimp only at hcon
          rcases List.mem_cons.mp ha with heq | hrest
          · subst heq
            obtain ⟨node, hnode⟩ := har.found
            rw [hfind] at hnode
            cases hnode
          · exact ih rest t v hv ⟨a, hrest, har⟩ ys t' hcon
        | some node =>
          rw [hfind] at hcon
          dsimp only at hcon
          cases hc : traverseNodesF nodes n (childIds node) (nid :: t) with
          | fuelOut => rw [hc] at hcon; cases hcon
          | cycleError => rw [hc] at hcon; cases hcon
          | ok ys2 t2 =>
            rw [hc] at hcon
            dsimp only at hcon
            cases hrr : traverseNodesF nodes n rest t2 with
            | fuelOut => rw [hrr] at hcon; cases hcon
            | cycleError => rw [hrr] at hcon; cases hcon
            | ok zs t3 =>
              rcases List.mem_cons.mp ha with heq | hrest
              · subst heq
                cases har with
                | refl _ node' ha' =>
                  exact hmem hv
                | step _ b _ node' ha' hb hbr =>
                  rw [hfind] at ha'
                  cases ha'
                  exact ih (childIds node) (a :: t) v (List.mem_cons_of_mem _ hv)
                    ⟨b, hb, hbr⟩ ys2 t2 hc
              · obtain ⟨u, hu, -, -⟩ := travOkVisited nodes n _ _ _ _ hc
                have hv2 : v ∈ t2 := by
                  rw [hu]
                  exact List.mem_append_right _ (List.mem_cons_of_mem _ hv)
                exact ih rest t2 v hv2 ⟨a, hrest, har⟩ zs t3 hrr

/-- If some id on the pending list reaches a node that lies on a
children-cycle, the traversal cannot succeed. -/
theorem travCycleNotOk (nodes : GltfDictionary GltfNode) :
    ∀ (fuel : Nat) (ids t : List GltfId) (v : GltfId),
      (∃ a ∈ ids, Reaches nodes a v) → CycleAt nodes v →
      ∀ (ys : List GltfNode) (t' : List GltfId), traverseNodesF nodes fuel ids t ≠ .ok ys t' := by
  intro fuel
  induction fuel with
  | zero =>
    intro ids t v hr hcyc ys t' hcon
    simp [traverseNodesF] at hcon
  | succ n ih =>
    intro ids t v hr hcyc ys t' hcon
    obtain ⟨a, ha, har⟩ := hr
    match ids with
    | [] => cases ha
    | nid :: rest =>
      rw [traverseNodesF] at hcon
      by_cases hmem : nid ∈ t
      · rw [if_pos hmem] at hcon
        cases hcon
      · rw [if_neg hmem] at hcon
        cases hfind : dictLookup nodes nid with
        | none =>
          rw [hfind] at hcon
          dsimp only at hcon
          rcases List.mem_cons.mp ha with heq | hrest
          · subst heq
            obtain ⟨node, hnode⟩ := har.found
            rw [hfind] at hnode
            cases hnode
          · exact ih rest t v ⟨a, hrest, har⟩ hcyc ys t' hcon
        | some node =>
          rw [hfind] at hcon
          dsimp only at hcon
          cases hc : traverseNodesF nodes n (childIds node) (nid :: t) with
          | fuelOut => rw [hc] at hcon; cases hcon
          | cycleError => rw [hc] at hcon; cases hcon
          | ok ys2 t2 =>
            rw [hc] at hcon
            dsimp only at hcon
            cases hrr : traverseNodesF nodes n rest t2 with
            | fuelOut => rw [hrr] at hcon; cases hcon
            | cycleError => rw [hrr] at hcon; cases hcon
            | ok zs t3 =>
              rcases List.mem_cons.mp ha with heq | hrest
              · subst heq
                cases har with
                | refl _ node' ha' =>
                  obtain ⟨nodev, hvfind, c, hc1, hc2⟩ := hcyc
                  rw [hfind] at hvfind
                  cases hvfind
                  exact travRevisitNotOk nodes n (childIds node) (v :: t) v
                    (List.mem_cons_self _ _) ⟨c, hc1, hc2⟩ ys2 t2 hc
                | step _ b _ node' ha' hb hbr =>
                  rw [hfind] at ha'
                  cases ha'
                  exact ih (childIds node) (a :: t) v ⟨b, hb, hbr⟩ hcyc ys2 t2 hc
              · exact ih rest t2 v ⟨a, hrest, har⟩ hcyc zs t3 hrr

/-- C3: the claim says buffer-data conversion between distinct types succeeds
only when widening within the unsigned integers, every narrowing request
fails, and float data only satisfies float requests. Counterexample: a
signed-byte request (8-bit, not a widening) over data stored as unsigned
16-bit succeeds — the screening `switch` has no case for request types
outside the four supported ones, so the request falls through and receives
the stored 16-bit representation. -/
theorem c3_conversion_claim_cx :
    GltfBufferData.create [1, 2] .unsignedShort .signedByte 1
      = some ⟨.u16 [513], 1⟩ := rfl

/-- C3 (amended): for the four requestable component types (the only ones the
reader's `readBufferData8/16/32/Float` paths request), conversion succeeds
exactly for equal types, a 16-bit request of stored 8-bit, or a 32-bit
request of stored 8- or 16-bit; requests outside those four types are not
screened by the conversion `switch`. -/
theorem c3_conversion_amended (bytes : List Nat) (count : Nat)
    (actual expected : GltfDataType)
    (h : expected = .unsignedByte ∨ expected = .unsignedShort ∨ expected = .uInt32 ∨
         expected = .float) :
    (GltfBufferData.create bytes actual expected count).isSome ↔
      (expected = actual ∨ (expected = .unsignedShort ∧ actual = .unsignedByte) ∨
       (expected = .uInt32 ∧ (actual = .unsignedByte ∨ actual = .unsignedShort))) := by
  rcases h with h | h | h | h <;> subst h <;> cases actual <;>
    simp [GltfBufferData.create, createDataBuffer]

/-- C3 witness: a 32-bit request of stored 8-bit data succeeds. -/
theorem c3_conversion_amended_witness :
    (GltfBufferData.create [7] .unsignedByte .uInt32 1).isSome :=
  (c3_conversion_amended [7] 1 .unsignedByte .uInt32
    (Or.inr (Or.inr (Or.inl rfl)))).mpr (Or.inr (Or.inr ⟨rfl, Or.inl rfl⟩))

/-- C4: the claim says any failure during lookup — including an out-of-range
offset — yields the unresolved result. Counterexample: with an accessor byte
offset of 100 into a 4-byte resolved buffer (out of range), `getBufferView`
returns a resolved view over the clamped (empty) byte slice, not
`undefined`: `subarray`/`slice` clamp, they do not fail. -/
theorem c4_out_of_range_offset_cx :
    getBufferView c4cxReader [("POSITION", "a")] "POSITION"
        = some ⟨[], 1, .unsignedByte, c4cxAccessor, 1⟩ ∧
      c4cxAccessor.byteOffset = some 100 ∧
      (resolvedBufferOf c4cxReader { buffer := some "b" }) = some [1, 2, 3, 4] := by
  refine ⟨rfl, rfl, rfl⟩

/-- C4 (amended): buffer-view resolution is a total function of the document
(the source wraps its body in try/catch): it returns `undefined` exactly on
the enumerated lookup failures — missing accessor, missing buffer view,
unresolved buffer, or unsupported component type — while an out-of-range
offset is clamped by `subarray`/`slice` and yields a resolved (truncated)
view rather than `undefined`. -/
theorem c4_lookup_failures_amended (r : GltfReader) (json : GltfDictionary GltfId)
    (accessorName : String) :
    (getBufferView r json accessorName = none) ↔
      bufferViewLookupFails r json accessorName = true := by
  unfold getBufferView bufferViewLookupFails accessorOf bufferViewPropsOf resolvedBufferOf
  dsimp only
  cases hacc : (if (dictLookup json accessorName).getD "" ≠ "" then
      dictLookup r.glTF.accessors ((dictLookup json accessorName).getD "") else none) with
  | none => simp
  | some acc =>
    dsimp only
    cases hbv : acc.bufferView with
    | none => simp
    | some bvId =>
      dsimp only
      cases hbvp : dictLookup r.glTF.bufferViews bvId with
      | none => simp [hbvp]
      | some bufferView =>
        dsimp only
        cases hbuf : bufferView.buffer with
        | none => simp [hbvp, hbuf]
        | some bufId =>
          dsimp only
          cases hres : (dictLookup r.glTF.buffers bufId).bind (·.resolvedBuffer) with
          | none => simp [hbvp, hbuf, hres]
          | some bytes =>
            dsimp only
            cases hds : componentDataSize acc.componentType with
            | none => simp [hbvp, hbuf, hres, hds, Option.isNone]
            | some ds => simp [hbvp, hbuf, hres, hds]

/-- C5: the claim says byte stride equals the explicit `byteStride` whenever
present. Counterexample: an explicit `byteStride` of 0 is falsy in
JavaScript, so the code substitutes arity × component size (here 2 × 2 = 4)
and returns all 8 bytes, where the claim's formula predicts stride 0 and an
empty byte length. -/
theorem c5_zero_byte_stride_cx :
    getBufferView c5cxReader [("POSITION", "a")] "POSITION"
        = some ⟨[1, 2, 3, 4, 5, 6, 7, 8], 2, .unsignedShort, c5cxAccessor, 2⟩ ∧
      specByteStride c5cxBufferView 2 2 * c5cxAccessor.count = 0 := by
  refine ⟨rfl, rfl⟩

/-- C5 (amended): for every resolvable accessor, the returned view covers the
bytes at absolute offset `bufferView.byteOffset + accessor.byteOffset` (each
defaulting to 0), of byte length `byteStride * accessor.count` (clamped to
the available bytes), where the byte stride is the explicit *nonzero*
`byteStride` when present — an explicit 0 is treated like absence — and
otherwise vector arity times component byte size; the view's element stride
is the byte stride divided by the component size. -/
theorem c5_layout_amended (r : GltfReader) (json : GltfDictionary GltfId)
    (accessorName : String) (acc : GltfAccessor) (bv : GltfBufferViewProps)
    (bytes : List Nat) (ds : Nat)
    (hacc : accessorOf r json accessorName = some acc)
    (hbv : bufferViewPropsOf r acc = some bv)
    (hbuf : resolvedBufferOf r bv = some bytes)
    (hds : componentDataSize acc.componentType = some ds) :
    getBufferView r json accessorName =
      (let byteStride :=
        match bv.byteStride with
        | some s => if s ≠ 0 then s else vectorArity acc.type * ds
        | none => vectorArity acc.type * ds
      let offset := bv.byteOffset.getD 0 + acc.byteOffset.getD 0
      some ⟨(bytes.drop offset).take (byteStride * acc.count), acc.count, acc.componentType,
        acc, byteStride / ds⟩) := by
  unfold accessorOf at hacc
  obtain ⟨bvId, hbvId, hlook⟩ := Option.bind_eq_some.mp hbv
  obtain ⟨bufId, hbufId, hres⟩ := Option.bind_eq_some.mp hbuf
  unfold getBufferView
  dsimp only
  rw [hacc]
  dsimp only
  rw [hbvId]
  dsimp only
  rw [hlook]
  dsimp only
  rw [hbufId]
  dsimp only
  rw [hres, hds]

/-- C5 witness: a fully resolvable accessor with no explicit stride. -/
theorem c5_layout_amended_witness :
    getBufferView c4cxReader [("POSITION", "a")] "POSITION"
      = some ⟨(([1, 2, 3, 4] : List Nat).drop 100).take 1, 1, .unsignedByte, c4cxAccessor, 1⟩ :=
  c5_layout_amended c4cxReader [("POSITION", "a")] "POSITION" c4cxAccessor
    { buffer := some "b" } [1, 2, 3, 4] 1 rfl rfl rfl rfl

/-- C10: the claim says a well-formed glTF asset containing zero meshes is
rejected at parse time. Counterexample: a document whose `meshes` dictionary
is present but empty passes the gate (`JsonUtils.asObject` returns the empty
object, which is truthy), so reader properties are constructed. -/
theorem c10_zero_meshes_cx :
    (gltfReaderPropsCreate c10cxDoc).isSome = true := rfl

/-- C10 (amended): for a document that otherwise parses (its `asset` is an
object, as glTF 2.0 requires), reader-properties construction fails exactly
when the document's `meshes` entry is absent or not an object; an empty
meshes dictionary is accepted. -/
theorem c10_meshes_gate_amended (source : Json)
    (h : (jsonAsObject (jsonGet source "asset")).isSome) :
    (gltfReaderPropsCreate source).isNone
      ↔ (jsonAsObject (jsonGet source "meshes")).isNone := by
  unfold gltfReaderPropsCreate
  have hnot : ¬ ((2 : Nat) = 2 ∧ (jsonAsObject (jsonGet source "asset")).isNone) := by
    rintro ⟨-, hc⟩
    rw [Option.isNone_iff_eq_none] at hc
    rw [hc] at h
    cases h
  rw [if_neg hnot]
  dsimp only
  cases hm : (jsonAsObject (jsonGet source "meshes")) with
  | none => simp
  | some m => simp

/-- C10 witness: a document with an asset but no meshes entry is rejected. -/
theorem c10_meshes_gate_amended_witness :
    (gltfReaderPropsCreate c10wDoc).isNone :=
  (c10_meshes_gate_amended c10wDoc rfl).mpr rfl

/-- C9: the resolved base color follows the precedence chain — legacy
explicit color values, else the modern technique uniform `u_color`, else the
PBR base-color factor, else opaque white — and a non-transparent material's
color has its alpha discarded (transparency forced to 0). The material
variants form a tagged union (the discriminator lives in GltfSchema, outside
`src/`), so each chain stage can only apply to its own variant. -/
theorem c9_material_color_precedence (tq : GltfDictionary GltfTechnique) (m : GltfMaterial) :
    (∀ t : Bool, colorFromMaterial m t =
      (if t then specBaseColor m else colorWithTransparency (specBaseColor m) 0)) ∧
    (isMaterialTransparent tq m = false →
      (colorFromMaterial m (isMaterialTransparent tq m)).transp = 0) := by
  constructor
  · intro t
    cases m with
    | gltf1 m1 =>
      unfold colorFromMaterial specBaseColor
      cases hc : m1.values.bind (·.color) <;> cases t <;> simp [colorWithTransparency]
    | gltf2 m2 =>
      unfold colorFromMaterial specBaseColor
      cases hu : ((m2.extensions.bind (·.khrTechniquesWebgl)).bind (·.values)).bind (·.u_color) <;>
        cases hp : m2.pbrMetallicRoughness.bind (·.baseColorFactor) <;> cases t <;>
          simp [colorWithTransparency]
  · intro h
    rw [h]
    unfold colorFromMaterial
    cases m with
    | gltf1 m1 =>
      cases hc : m1.values.bind (·.color) <;> simp [colorWithTransparency]
    | gltf2 m2 =>
      cases hu : ((m2.extensions.bind (·.khrTechniquesWebgl)).bind (·.values)).bind (·.u_color) <;>
        cases hp : m2.pbrMetallicRoughness.bind (·.baseColorFactor) <;>
          simp [colorWithTransparency]

/-- C9 witness: the empty modern material is opaque and resolves to a fully
opaque color. -/
theorem c9_material_color_precedence_witness :
    (colorFromMaterial (GltfMaterial.gltf2 {})
      (isMaterialTransparent [] (GltfMaterial.gltf2 {}))).transp = 0 :=
  (c9_material_color_precedence [] (GltfMaterial.gltf2 {})).2 rfl

/-- C1: the claim says re-visiting a node via a different, non-overlapping
path does not fail. Counterexample: node 1 is reached once as node 0's child
and once as a declared root — two non-overlapping paths, no cycle anywhere
in the graph (both `CycleAt` facts are refuted) — yet traversal raises the
hard cycle failure, because the visited set is shared across the entire
traversal. -/
theorem c1_shared_subtree_cx :
    traverseNodes c1cxReader ["0", "1"] = .cycleError ∧
      ¬ CycleAt c1cxNodes "0" ∧ ¬ CycleAt c1cxNodes "1" := by
  refine ⟨by decide, ?_, ?_⟩
  · rintro ⟨node, hn, c, hc, hr⟩
    have hn0 : dictLookup c1cxNodes "0" = some ({ children := some ["1"] } : GltfNode) := rfl
    rw [hn0] at hn
    cases hn
    simp [childIds] at hc
    subst hc
    have hreach1 : ∀ b, Reaches c1cxNodes "1" b → b = "1" := by
      intro b h
      cases h with
      | refl => rfl
      | step _ c _ node1 ha hb hr2 =>
        have ha1 : dictLookup c1cxNodes "1" = some ({} : GltfNode) := rfl
        rw [ha1] at ha
        cases ha
        simp [childIds] at hb
    exact absurd (hreach1 _ hr) (by decide)
  · rintro ⟨node, hn, c, hc, hr⟩
    have hn1 : dictLookup c1cxNodes "1" = some ({} : GltfNode) := rfl
    rw [hn1] at hn
    cases hn
    simp [childIds] at hc

/-- C1 (amended): the traversal's visited set is global to the whole
traversal, not scoped to the active root-to-leaf path: a successful
traversal therefore visits every node at most once (the final visited list
is duplicate-free), and whenever any pending id can reach a node already in
the shared visited set the traversal cannot succeed — so a shared sub-tree
(the counterexample) raises the same hard failure as a true cycle. -/
theorem c1_global_visited_amended (r : GltfReader) (ids : List GltfId) :
    (∀ ys t', traverseNodes r ids = .ok ys t' → t'.Nodup) ∧
    (∀ fuel t v ys t', v ∈ t → (∃ a ∈ ids, Reaches r.glTF.nodes a v) →
      traverseNodesF r.glTF.nodes fuel ids t ≠ .ok ys t') := by
  constructor
  · intro ys t' h
    obtain ⟨u, hu, hnd, -⟩ := travOkVisited r.glTF.nodes _ ids [] ys t' h
    simpa [hu] using hnd
  · intro fuel t v ys t' hv hr
    exact travRevisitNotOk r.glTF.nodes fuel ids t v hv hr ys t'

/-- C1 witness: a successful single-root traversal yields a duplicate-free
visited list. -/
theorem c1_global_visited_amended_witness :
    (["0"] : List GltfId).Nodup :=
  (c1_global_visited_amended c1wReader ["0"]).1 [({} : GltfNode)] ["0"] (by decide)

/-- On the self-loop document the graphics-producing node recursion never
completes, whatever the fuel: each unfolding recurses into the same node. -/
theorem c2DivergenceAux : ∀ (fuel : Nat) (gl : List Graphic) (stack : TransformStack)
    (acc : Range3),
    readNodeAndCreateGraphicsF c2cxReader false false fuel (some c2cxNode) gl stack none true acc
      = none := by
  intro fuel
  induction fuel using Nat.strong_induction_on with
  | _ fuel ih =>
    cases fuel with
    | zero => intro gl stack acc; rfl
    | succ m =>
      cases m with
      | zero => intro gl stack acc; rfl
      | succ n =>
        intro gl stack acc
        rw [readNodeAndCreateGraphicsF]
        rw [show c2cxNode.children.getD [] = ["0"] from rfl]
        rw [readNodeChildrenF]
        rw [show dictLookup c2cxReader.glTF.nodes "0" = some c2cxNode from rfl]
        dsimp only
        rw [ih n (by omega)]

/-- C2: the claim says every traversal of a cyclic graph — the
graphics-producing node recursion included — terminates with a failure.
Counterexample: on a self-loop node the graphics recursion does not
terminate at all (no fuel completes it); it performs no cycle detection. -/
theorem c2_graphics_recursion_cx :
    ¬ NodeGraphicsTerminates c2cxReader c2cxNode ∧ CycleAt c2cxNodes "0" := by
  constructor
  · rintro ⟨fuel, hf⟩
    rw [c2DivergenceAux fuel [] [] none] at hf
    simp at hf
  · exact ⟨c2cxNode, rfl, "0", by simp [c2cxNode, childIds],
      Reaches.refl "0" c2cxNode rfl⟩

/-- C2 (amended): the generator-based traversal (run during resource
resolution) terminates on every document — the canonical fuel never runs
out — and on any document where a node on a children-cycle is reachable
from the traversal's start ids it terminates with the hard cycle failure.
The graphics-producing recursion itself has no cycle detection and
diverges on cyclic graphs (see the counterexample); cyclic documents are
rejected only because the detecting traversal runs first in the read path. -/
theorem c2_cycle_failure_amended (r : GltfReader) (ids : List GltfId) :
    (∀ (ids2 t2 : List GltfId),
      traverseNodesF r.glTF.nodes (travPotential r.glTF.nodes ids2 t2) ids2 t2 ≠ .fuelOut) ∧
    (∀ v, (∃ a ∈ ids, Reaches r.glTF.nodes a v) → CycleAt r.glTF.nodes v →
      traverseNodes r ids = .cycleError) := by
  constructor
  · intro ids2 t2
    exact travNoFuelOut r.glTF.nodes _ ids2 t2 le_rfl
  · intro v hr hcyc
    have h1 := travCycleNotOk r.glTF.nodes (travPotential r.glTF.nodes ids []) ids [] v hr hcyc
    have h2 := travNoFuelOut r.glTF.nodes (travPotential r.glTF.nodes ids []) ids [] le_rfl
    unfold traverseNodes
    cases hres : traverseNodesF r.glTF.nodes (travPotential r.glTF.nodes ids []) ids [] with
    | ok ys t' => exact absurd hres (h1 ys t')
    | cycleError => rfl
    | fuelOut => exact absurd hres h2

/-- C2 witness: the self-loop document's traversal ends in the cycle
failure. -/
theorem c2_cycle_failure_amended_witness :
    traverseNodes c2cxReader ["0"] = .cycleError :=
  (c2_cycle_failure_amended c2cxReader ["0"]).2 "0"
    ⟨"0", List.mem_singleton.mpr rfl, Reaches.refl "0" c2cxNode rfl⟩
    ⟨c2cxNode, rfl, "0", by simp [c2cxNode, childIds], Reaches.refl "0" c2cxNode rfl⟩

/-- C6: for a non-indexed triangle primitive with four points (twelve
position scalars), the claim requires index reading to fail, since 4 is not
divisible by 3. The code instead tests and enumerates `mesh.points.length`
— the flat scalar array length, which is always a multiple of 3 — so it
accepts the primitive and synthesizes twelve sequential indices, one per
scalar rather than one per point, referencing the nonexistent points 4..11. -/
theorem c6_nonindexed_scalar_count_bug :
    readMeshIndices emptyReader c6mesh {}
        = some { c6mesh with indices := some ⟨.u8, List.range 12⟩ } ∧
      (c6mesh.points.getD []).length = 12 ∧ (12 / 3) % 3 ≠ 0 := by
  refine ⟨by decide, by decide, by decide⟩

/-- C7: a primitive whose POSITION attribute cannot be resolved — no
resolvable accessor, or position data of an unsupported component type —
reads as nothing (`undefined`, without throwing: the embedding is total),
and contributes no geometry: the per-primitive fold of `readMeshPrimitives`
is unchanged by its presence. -/
theorem c7_unresolved_position_drops_primitive (r : GltfReader) (prim : GltfMeshPrimitive)
    (ft : Bool) (bias : Option Vec3)
    (hdraco : prim.extensions.bind (·.khrDracoMeshCompression) = none)
    (hpos : getBufferView r prim.attributes "POSITION" = none ∨
      (∃ v, getBufferView r prim.attributes "POSITION" = some v ∧
        v.type ≠ .float ∧ v.type ≠ .unsignedShort)) :
    readMeshPrimitive r prim ft bias = none ∧
    (∀ (l1 l2 : List GltfMeshPrimitive) (st : List GltfMeshData × Range3)
        (tt : Option Transform) (ca : Bool),
      (l1 ++ prim :: l2).foldl (readMeshPrimitivesStep r ft tt bias ca) st
        = (l1 ++ l2).foldl (readMeshPrimitivesStep r ft tt bias ca) st) := by
  have hrv : ∀ m, readVertices r m prim bias = none := by
    intro m
    unfold readVertices
    rcases hpos with h | ⟨v, hv, hv1, hv2⟩
    · rw [h]
    · rw [hv]
      dsimp only
      rw [if_neg hv1, if_pos hv2]
  have h1 : readMeshPrimitive r prim ft bias = none := by
    unfold readMeshPrimitive
    dsimp only
    split
    · rfl
    · try dsimp only
      split
      · rfl
      · try dsimp only
        split
        · rfl
        · try dsimp only
          rw [hdraco]
          try dsimp only
          rw [hrv]
  refine ⟨h1, ?_⟩
  have hstep : ∀ (tt : Option Transform) (ca : Bool) (st : List GltfMeshData × Range3),
      readMeshPrimitivesStep r ft tt bias ca st prim = st := by
    intro tt ca st
    unfold readMeshPrimitivesStep
    rw [h1]
  intro l1 l2 st tt ca
  induction l1 generalizing st with
  | nil => simp [List.foldl_cons, hstep]
  | cons p l1 ih => simp [List.foldl_cons, ih]

/-- C7 witness: a primitive with no attributes at all reads as nothing. -/
theorem c7_unresolved_position_drops_primitive_witness :
    readMeshPrimitive emptyReader {} false none = none :=
  (c7_unresolved_position_drops_primitive emptyReader {} false none rfl (Or.inl rfl)).1

/-- A node read on a present node only ever reports success (the
invalid-data arm of `readNodeAndCreateGraphics` is reserved for an undefined
node, which the callers already filter out). -/
theorem readNodeStatusSuccess (r : GltfReader) (ft inst : Bool) :
    ∀ (fuel : Nat) (node : GltfNode) (gl : List Graphic) (stack : TransformStack)
      (bias : Option Vec3) (ca : Bool) (acc : Range3) (gl2 : List Graphic)
      (st : TileReadStatus) (acc2 : Range3),
      readNodeAndCreateGraphicsF r ft inst fuel (some node) gl stack bias ca acc
        = some (gl2, st, acc2) → st = .success := by
  intro fuel node gl stack bias ca acc gl2 st acc2 h
  cases fuel with
  | zero => exact Option.noConfusion h
  | succ n =>
    rw [readNodeAndCreateGraphicsF] at h
    try dsimp only at h
    split at h
    · exact Option.noConfusion h
    · cases h
      rfl

/-- The scene-node loop never takes its early-return arm: node reads on
present nodes always succeed. -/
theorem sceneLoopNoInl (r : GltfReader) (fuel : Nat) (ft inst : Bool) (bias : Option Vec3)
    (ca : Bool) :
    ∀ (ids : List GltfId) (gl : List Graphic) (acc : Range3) (status st0 : TileReadStatus),
      sceneNodesLoopF r fuel ft inst bias ca ids gl acc status ≠ some (.inl st0) := by
  intro ids
  induction ids with
  | nil =>
    intro gl acc status st0 h
    rw [sceneNodesLoopF] at h
    cases h
  | cons k rest ih =>
    intro gl acc status st0 h
    rw [sceneNodesLoopF] at h
    cases hl : dictLookup r.glTF.nodes k with
    | none =>
      rw [hl] at h
      try dsimp only at h
      exact ih _ _ _ _ h
    | some node =>
      rw [hl] at h
      try dsimp only at h
      cases hr : readNodeAndCreateGraphicsF r ft inst fuel (some node) gl [] bias ca acc with
      | none =>
        rw [hr] at h
        try dsimp only at h
        exact Option.noConfusion h
      | some trip =>
        obtain ⟨gl2, st2, acc2⟩ := trip
        rw [hr] at h
        try dsimp only at h
        have hst := readNodeStatusSuccess r ft inst fuel node gl [] bias ca acc gl2 st2 acc2 hr
        subst hst
        rw [if_neg (by simp)] at h
        exact ih _ _ _ _ h

/-- The scene-node loop either returns its inputs unchanged (no node found)
or reports success. -/
theorem sceneLoopInr (r : GltfReader) (fuel : Nat) (ft inst : Bool) (bias : Option Vec3)
    (ca : Bool) :
    ∀ (ids : List GltfId) (gl : List Graphic) (acc : Range3) (status : TileReadStatus)
      (gl2 : List Graphic) (acc2 : Range3) (status2 : TileReadStatus),
      sceneNodesLoopF r fuel ft inst bias ca ids gl acc status
          = some (.inr (gl2, acc2, status2)) →
        (gl2 = gl ∧ status2 = status) ∨ status2 = .success := by
  intro ids
  induction ids with
  | nil =>
    intro gl acc status gl2 acc2 status2 h
    rw [sceneNodesLoopF] at h
    cases h
    exact Or.inl ⟨rfl, rfl⟩
  | cons k rest ih =>
    intro gl acc status gl2 acc2 status2 h
    rw [sceneNodesLoopF] at h
    cases hl : dictLookup r.glTF.nodes k with
    | none =>
      rw [hl] at h
      try dsimp only at h
      exact ih _ _ _ _ _ _ h
    | some node =>
      rw [hl] at h
      try dsimp only at h
      cases hr : readNodeAndCreateGraphicsF r ft inst fuel (some node) gl [] bias ca acc with
      | none =>
        rw [hr] at h
        try dsimp only at h
        exact Option.noConfusion h
      | some trip =>
        obtain ⟨gl3, st3, acc3⟩ := trip
        rw [hr] at h
        try dsimp only at h
        have hst := readNodeStatusSuccess r ft inst fuel node gl [] bias ca acc gl3 st3 acc3 hr
        subst hst
        rw [if_neg (by simp)] at h
        rcases ih _ _ _ _ _ _ h with ⟨-, h2⟩ | h2
        · exact Or.inr h2
        · exact Or.inr h2

/-- C8: a non-canceled read that completes never fails because individual
primitives were dropped: it reports invalid data exactly when the whole
traversal produced zero render graphics, and otherwise succeeds carrying a
graphic assembled from the ones produced. -/
theorem c8_invalid_iff_no_graphics (r : GltfReader) (fuel : Nat) (isLeaf ft : Bool)
    (cr : Option Range3) (t2r : Option Transform) (bias : Option Vec3) (inst : Bool)
    (res : GltfReaderResult) (gl : List Graphic)
    (hnc : r.canceled = false)
    (hrun : readGltfAndCreateGraphicsF r fuel isLeaf ft cr t2r bias inst = some (res, gl)) :
    (res.readStatus = .invalidTileData ↔ gl = []) ∧
    (gl ≠ [] → res.readStatus = .success ∧ res.graphic.isSome) := by
  unfold readGltfAndCreateGraphicsF at hrun
  rw [if_neg (by simp [hnc])] at hrun
  dsimp only at hrun
  split at hrun
  · exact Option.noConfusion hrun
  · rename_i st0 heq
    exact absurd heq (sceneLoopNoInl r fuel ft inst _ _ r.sceneNodes [] _ .invalidTileData st0)
  · rename_i gl0 acc0 status0 heq
    split at hrun
    · rename_i hlen
      cases hrun
      have hnil : gl = [] := List.length_eq_zero.mp hlen
      constructor
      · simp [hnil]
      · intro hne
        exact absurd hnil hne
    · rename_i hlen
      cases hrun
      have hne : gl ≠ [] := fun hnil => hlen (by simp [hnil])
      have hst : status0 = .success := by
        rcases sceneLoopInr r fuel ft inst _ _ r.sceneNodes [] _ .invalidTileData
            gl acc0 status0 heq with ⟨h1, -⟩ | h2
        · exact absurd h1 hne
        · exact h2
      subst hst
      exact ⟨iff_of_false (by simp) hne, fun _ => ⟨rfl, rfl⟩⟩

/-- C8 witness: the one-triangle document reads successfully and its status
agrees with the claim's characterization. -/
theorem c8_invalid_iff_no_graphics_witness :
    ∃ res gl, readGltfAndCreateGraphicsF c8reader 2 true false none none none false
        = some (res, gl) ∧ (res.readStatus = .invalidTileData ↔ gl = []) ∧ gl ≠ [] := by
  have hs : (readGltfAndCreateGraphicsF c8reader 2 true false none none none false).isSome
      = true := by rfl
  have hlen : (readGltfAndCreateGraphicsF c8reader 2 true false none none none false).map
      (fun p => p.2.length) = some 1 := by rfl
  obtain ⟨⟨res, gl⟩, hp⟩ := Option.isSome_iff_exists.mp hs
  have hgl : gl.length = 1 := by
    rw [hp] at hlen
    simpa using hlen
  have h := c8_invalid_iff_no_graphics c8reader 2 true false none none none false res gl rfl hp
  refine ⟨res, gl, hp, h.1, ?_⟩
  intro hnil
  rw [hnil] at hgl
  simp at hgl

end GltfSpec
